import Mathlib

/-!
# Railway database manager: polling-based state synchronisation

A shallow embedding of `src/databasemanager.cpp` (class `DatabaseManager`).

* The Qt object is the record `DatabaseManager`; its member functions are
  functions on `Sys`, the manager together with the PostgreSQL server it talks
  to, the list of Qt signals emitted so far, and what the bindings of the two
  Q_PROPERTYs have read at each `connectionChanged`.
* The server is the environment.  Every call that can fail (`open`, `exec`)
  takes its outcome from a script of outcomes carried by the server model, so a
  theorem quantified over all scripts covers every pattern of failures.
* `qDebug()` output is not modelled: it is not observable by subscribers.
* The Qt SQL classes report failure through return values; they do not throw
  `std::exception`, so the `catch` blocks of `connectToDatabase` and
  `pollDatabaseState` are not reachable through these calls and are not modelled.
-/

namespace Railway

/-! ## QMap<int, QString> -/

/-- A `QMap<int, QString>`: the key/value pairs in ascending key order. -/
abbrev QMap := List (Int × String)

/-- Lookup of a key (`QMap::constFind`). -/
def QMap.find? : QMap → Int → Option String
  | [], _ => none
  | (k, v) :: t, key => if key = k then some v else QMap.find? t key

/-- Membership test `QMap::contains`. -/
def QMap.contains (m : QMap) (key : Int) : Bool := (QMap.find? m key).isSome

/-- Read access `m[key]` on a key; a missing key reads as the default-constructed
(empty) `QString`.  The source only reads keys it has just tested with `contains`. -/
def QMap.value (m : QMap) (key : Int) : String := (QMap.find? m key).getD ""

/-- Assignment `m[key] = value`: replaces the value of an existing key, otherwise
inserts the pair at its place in key order. -/
def QMap.insert : QMap → Int → String → QMap
  | [], key, value => [(key, value)]
  | (k, v) :: t, key, value =>
    if key < k then (key, value) :: (k, v) :: t
    else if key = k then (key, value) :: t
    else (k, v) :: QMap.insert t key value

/-! ## Qt signals and object state -/

/-- The Qt signals of `DatabaseManager` (section `signals:` of the header). -/
inductive Event where
  | connectionChanged
  | signalStateChanged (signalId : Int) (state : String)
  | trainPositionChanged (trainId : Int) (position : String)
  | errorOccurred (error : String)
  deriving DecidableEq, Repr

/-- A `QTimer`: its interval in milliseconds and whether it is running. -/
structure QTimer where
  interval : Nat
  active : Bool
  deriving DecidableEq, Repr

/-- The data members of `DatabaseManager`.  Of `m_database` only `isOpen()` is
kept, as `m_databaseOpen`. -/
structure DatabaseManager where
  m_databaseOpen : Bool
  m_connectionTimer : QTimer
  m_statePollingTimer : QTimer
  m_isConnected : Bool
  m_connectionStatus : String
  m_lastKnownSignalStates : QMap
  m_lastKnownTrainPositions : QMap
  deriving DecidableEq, Repr

/-! ## The PostgreSQL server -/

/-- A row of `railway_signals`.  The column `last_updated` is never read by the
program and is left out.  `signal_id` is a `SERIAL` (32-bit) column, so
`toInt()` returns it as stored; a NULL `state` reads as the empty string through
`toString()` and is represented by it. -/
structure SignalRow where
  signal_id : Int
  name : String
  state : String
  track_section : String
  deriving DecidableEq, Repr

/-- A row of `railway_trains` (without `last_updated`), under the same
conventions as `SignalRow`. -/
structure TrainRow where
  train_id : Int
  name : String
  current_position : String
  status : String
  deriving DecidableEq, Repr

/-- The calls the manager makes to the server, in the words of the source. -/
inductive Stmt where
  | openConnection
  | select1
  | createSignalsTable
  | createTrainsTable
  | countSignals
  | insertTestSignals
  | countTrains
  | insertTestTrains
  | pollSignals
  | pollTrains
  | loadSignals
  | loadTrains
  | updateSignal (state : String) (signalId : Int)
  | updateTrain (position : String) (trainId : Int)
  deriving DecidableEq, Repr

/-- The server as the manager sees it.

* `railway_signals`, `railway_trains`: the rows of the two tables, which are
  taken to exist (on success `CREATE TABLE IF NOT EXISTS` changes nothing).
* `signal_id_seq`, `train_id_seq`: the next values of the two `SERIAL` columns.
* `faults`: the outcomes of the coming calls, oldest first; `none` is success,
  `some text` is a failure with error text `text`; once the script is used up
  every call succeeds.
* `received`: every call received so far, failed ones included.
* `opened`: how many times `open()` has succeeded. -/
structure Db where
  railway_signals : List SignalRow
  railway_trains : List TrainRow
  signal_id_seq : Int
  train_id_seq : Int
  faults : List (Option String)
  received : List Stmt
  opened : Nat
  deriving DecidableEq, Repr

/-- The manager, the server, and what subscribers have observed so far, oldest
first.

* `out`: the signals emitted.
* `propertyReads`: `connectionChanged` is the NOTIFY signal of the properties
  `isConnected` and `connectionStatus` (header lines 18-19), so what is bound to
  them reads both getters while the signal is being emitted; each entry is what
  one emission of `connectionChanged` let them read. -/
structure Sys where
  m : DatabaseManager
  db : Db
  out : List Event
  propertyReads : List (Bool × String)
  deriving DecidableEq, Repr

/-- The outcome the next call will have. -/
def Db.nextOutcome (db : Db) : Option String :=
  match db.faults with
  | [] => none
  | f :: _ => f

/-- One call reaches the server: it is recorded and takes the next outcome. -/
def Db.call (db : Db) (q : Stmt) : Option String × Db :=
  (db.nextOutcome, { db with faults := db.faults.tail, received := db.received ++ [q] })

/-- Rows of `railway_signals` in the order of `ORDER BY signal_id`. -/
def Db.signalsById (db : Db) : List SignalRow :=
  db.railway_signals.insertionSort (fun a b => a.signal_id ≤ b.signal_id)

/-- Rows of `railway_trains` in the order of `ORDER BY train_id`. -/
def Db.trainsById (db : Db) : List TrainRow :=
  db.railway_trains.insertionSort (fun a b => a.train_id ≤ b.train_id)

/-- Result set of `SELECT signal_id, state FROM railway_signals ORDER BY signal_id`. -/
def Db.selectSignalStates (db : Db) : List (Int × String) :=
  db.signalsById.map (fun r => (r.signal_id, r.state))

/-- Result set of `SELECT train_id, current_position FROM railway_trains ORDER BY train_id`. -/
def Db.selectTrainPositions (db : Db) : List (Int × String) :=
  db.trainsById.map (fun r => (r.train_id, r.current_position))

/-- Result set of `SELECT signal_id, state, name FROM railway_signals ORDER BY signal_id`. -/
def Db.selectSignalStatesNames (db : Db) : List (Int × String × String) :=
  db.signalsById.map (fun r => (r.signal_id, r.state, r.name))

/-- Result set of `SELECT train_id, current_position, name FROM railway_trains ORDER BY train_id`. -/
def Db.selectTrainPositionsNames (db : Db) : List (Int × String × String) :=
  db.trainsById.map (fun r => (r.train_id, r.current_position, r.name))

/-- Effect of `UPDATE railway_signals SET state = ? ... WHERE signal_id = ?`. -/
def Db.setSignalState (db : Db) (state : String) (signalId : Int) : Db :=
  let rows := db.railway_signals.map
    (fun r => if r.signal_id = signalId then { r with state := state } else r)
  { db with railway_signals := rows }

/-- Effect of `UPDATE railway_trains SET current_position = ? ... WHERE train_id = ?`. -/
def Db.setTrainPosition (db : Db) (position : String) (trainId : Int) : Db :=
  let rows := db.railway_trains.map
    (fun r => if r.train_id = trainId then { r with current_position := position } else r)
  { db with railway_trains := rows }

/-- Rows matched by `WHERE signal_id = ?` (`numRowsAffected` of the update). -/
def Db.signalRowsMatching (db : Db) (signalId : Int) : Nat :=
  (db.railway_signals.filter (fun r => r.signal_id = signalId)).length

/-- Rows matched by `WHERE train_id = ?`. -/
def Db.trainRowsMatching (db : Db) (trainId : Int) : Nat :=
  (db.railway_trains.filter (fun r => r.train_id = trainId)).length

/-- Effect of the three-row `INSERT INTO railway_signals (name, state, track_section)`:
the ids come from the `SERIAL` sequence. -/
def Db.insertTestSignals (db : Db) : Db :=
  { db with
    railway_signals := db.railway_signals ++
      [⟨db.signal_id_seq, "Signal A1", "RED", "Platform A"⟩,
       ⟨db.signal_id_seq + 1, "Signal B2", "GREEN", "Junction B"⟩,
       ⟨db.signal_id_seq + 2, "Signal C3", "YELLOW", "Section C"⟩],
    signal_id_seq := db.signal_id_seq + 3 }

/-- Effect of the two-row `INSERT INTO railway_trains (name, current_position, status)`. -/
def Db.insertTestTrains (db : Db) : Db :=
  { db with
    railway_trains := db.railway_trains ++
      [⟨db.train_id_seq, "Train 001", "Platform A", "STOPPED"⟩,
       ⟨db.train_id_seq + 1, "Train 002", "Junction B", "MOVING"⟩],
    train_id_seq := db.train_id_seq + 2 }

/-- The schema constraint `PRIMARY KEY` of both tables: no two rows share an id. -/
def Db.PrimaryKeys (db : Db) : Prop :=
  (db.railway_signals.map (fun r => r.signal_id)).Nodup ∧
  (db.railway_trains.map (fun r => r.train_id)).Nodup

instance (db : Db) : Decidable db.PrimaryKeys := by
  unfold Db.PrimaryKeys; infer_instance

/-- The next `n` calls succeed. -/
def Db.NextOk (db : Db) (n : Nat) : Prop := ∀ f ∈ db.faults.take n, f = none

instance (db : Db) (n : Nat) : Decidable (db.NextOk n) := by
  unfold Db.NextOk; infer_instance

/-! ## Member functions of `DatabaseManager` -/

/-- The statement `emit e`. -/
def emit (e : Event) (s : Sys) : Sys := { s with out := s.out ++ [e] }

/-- `DatabaseManager::isConnected` (lines 31-34). -/
def isConnected (s : Sys) : Bool := s.m.m_isConnected

/-- `DatabaseManager::connectionStatus` (lines 36-39). -/
def connectionStatus (s : Sys) : String := s.m.m_connectionStatus

/-- The statement `emit connectionChanged()`: the signal is emitted and the two
properties it notifies are read at that moment. -/
def emitConnectionChanged (s : Sys) : Sys :=
  emit .connectionChanged
    { s with propertyReads := s.propertyReads ++ [(isConnected s, connectionStatus s)] }

/-- `QSqlDatabase::open` / `QSqlQuery::exec`: the call goes to the server and
returns `none` on success, the error text on failure.  Every reason for which
Qt returns `false` (server gone, statement rejected, handle not open) is a
failure of the script. -/
def exec (q : Stmt) (s : Sys) : Option String × Sys :=
  ((s.db.call q).1, { s with db := (s.db.call q).2 })

/-- `DatabaseManager::logDatabaseError` (lines 322-327). -/
def logDatabaseError (operation : String) (text : String) (s : Sys) : Sys :=
  emit (.errorOccurred ("❌ Database " ++ operation ++ " Error: " ++ text)) s

/-- The `while (signalQuery.next())` loop of `loadCurrentState` (lines 296-304). -/
def loadSignalRows : List (Int × String × String) → Sys → Sys
  | [], s => s
  | (signalId, state, _) :: rest, s =>
    loadSignalRows rest
      (emit (.signalStateChanged signalId state)
        { s with m := { s.m with
            m_lastKnownSignalStates := QMap.insert s.m.m_lastKnownSignalStates signalId state } })

/-- The `while (trainQuery.next())` loop of `loadCurrentState` (lines 310-318). -/
def loadTrainRows : List (Int × String × String) → Sys → Sys
  | [], s => s
  | (trainId, position, _) :: rest, s =>
    loadTrainRows rest
      (emit (.trainPositionChanged trainId position)
        { s with m := { s.m with
            m_lastKnownTrainPositions := QMap.insert s.m.m_lastKnownTrainPositions trainId position } })

/-- `DatabaseManager::loadCurrentState` (lines 286-320). -/
def loadCurrentState (s : Sys) : Sys :=
  if !s.m.m_isConnected then s
  else
    let s2 :=
      match exec .loadSignals s with
      | (none, s1) => loadSignalRows s1.db.selectSignalStatesNames s1
      | (some _, s1) => s1
    match exec .loadTrains s2 with
    | (none, s3) => loadTrainRows s3.db.selectTrainPositionsNames s3
    | (some _, s3) => s3

/-- Lines 148-155 of `setupDatabase`: seed `railway_signals` when it is empty.
Neither `exec` result is tested; after a failed `SELECT COUNT(*)` the call
`query.next()` is false.  The count is the number of rows, taken to fit the
`int` that `toInt()` returns. -/
def seedSignals (s : Sys) : Sys :=
  match exec .countSignals s with
  | (none, s1) =>
    if s1.db.railway_signals.length = 0 then
      match exec .insertTestSignals s1 with
      | (none, s2) => { s2 with db := s2.db.insertTestSignals }
      | (some _, s2) => s2
    else s1
  | (some _, s1) => s1

/-- Lines 157-163 of `setupDatabase`: seed `railway_trains` when it is empty. -/
def seedTrains (s : Sys) : Sys :=
  match exec .countTrains s with
  | (none, s1) =>
    if s1.db.railway_trains.length = 0 then
      match exec .insertTestTrains s1 with
      | (none, s2) => { s2 with db := s2.db.insertTestTrains }
      | (some _, s2) => s2
    else s1
  | (some _, s1) => s1

/-- `DatabaseManager::setupDatabase` (lines 111-169). -/
def setupDatabase (s : Sys) : Sys :=
  match exec .createSignalsTable s with
  | (some text, s1) => logDatabaseError "Create Signals Table" text s1
  | (none, s1) =>
    match exec .createTrainsTable s1 with
    | (some text, s2) => logDatabaseError "Create Trains Table" text s2
    | (none, s2) => loadCurrentState (seedTrains (seedSignals s2))

/-- `DatabaseManager::connectToDatabase` (lines 41-80).  `addDatabase` under the
same connection name replaces the previous handle, so `isOpen()` is afterwards
what this `open()` returned. -/
def connectToDatabase (s : Sys) : Bool × Sys :=
  match exec .openConnection s with
  | (none, s1) =>
    let s2 : Sys := { s1 with
      db := { s1.db with opened := s1.db.opened + 1 },
      m := { s1.m with
        m_databaseOpen := true,
        m_isConnected := true,
        m_connectionStatus := "Connected to PostgreSQL" } }
    let s3 := setupDatabase s2
    let s4 : Sys := { s3 with m := { s3.m with
      m_connectionTimer := { s3.m.m_connectionTimer with active := true },
      m_statePollingTimer := { s3.m.m_statePollingTimer with active := true } } }
    (true, emitConnectionChanged s4)
  | (some text, s1) =>
    let s2 : Sys := { s1 with m := { s1.m with
      m_databaseOpen := false,
      m_isConnected := false,
      m_connectionStatus := "Connection Failed: " ++ text } }
    let s3 := logDatabaseError "Connection" text s2
    (false, emit (.errorOccurred s3.m.m_connectionStatus) (emitConnectionChanged s3))

/-- `DatabaseManager::disconnectFromDatabase` (lines 82-93). -/
def disconnectFromDatabase (s : Sys) : Sys :=
  if s.m.m_databaseOpen then
    emitConnectionChanged
      { s with m := { s.m with
          m_connectionTimer := { s.m.m_connectionTimer with active := false },
          m_statePollingTimer := { s.m.m_statePollingTimer with active := false },
          m_databaseOpen := false,
          m_isConnected := false,
          m_connectionStatus := "Disconnected" } }
  else s

/-- `DatabaseManager::testConnection` (lines 95-109). -/
def testConnection (s : Sys) : Bool × Sys :=
  if !s.m.m_databaseOpen then connectToDatabase s
  else
    match exec .select1 s with
    | (none, s1) => (true, s1)
    | (some text, s1) => (false, logDatabaseError "Test Query" text s1)

/-- The `while (signalQuery.next())` loop of `pollDatabaseState` (lines 180-192). -/
def pollSignalRows : List (Int × String) → Sys → Sys
  | [], s => s
  | (signalId, currentState) :: rest, s =>
    if !QMap.contains s.m.m_lastKnownSignalStates signalId ||
        QMap.value s.m.m_lastKnownSignalStates signalId != currentState then
      pollSignalRows rest
        (emit (.signalStateChanged signalId currentState)
          { s with m := { s.m with
              m_lastKnownSignalStates :=
                QMap.insert s.m.m_lastKnownSignalStates signalId currentState } })
    else pollSignalRows rest s

/-- The `while (trainQuery.next())` loop of `pollDatabaseState` (lines 198-209). -/
def pollTrainRows : List (Int × String) → Sys → Sys
  | [], s => s
  | (trainId, currentPosition) :: rest, s =>
    if !QMap.contains s.m.m_lastKnownTrainPositions trainId ||
        QMap.value s.m.m_lastKnownTrainPositions trainId != currentPosition then
      pollTrainRows rest
        (emit (.trainPositionChanged trainId currentPosition)
          { s with m := { s.m with
              m_lastKnownTrainPositions :=
                QMap.insert s.m.m_lastKnownTrainPositions trainId currentPosition } })
    else pollTrainRows rest s

/-- `DatabaseManager::pollDatabaseState` (lines 172-215).  A failed `exec` has
no `else` branch: the rows of that collection are skipped and nothing is emitted. -/
def pollDatabaseState (s : Sys) : Sys :=
  if !s.m.m_isConnected then s
  else
    let s2 :=
      match exec .pollSignals s with
      | (none, s1) => pollSignalRows s1.db.selectSignalStates s1
      | (some _, s1) => s1
    match exec .pollTrains s2 with
    | (none, s3) => pollTrainRows s3.db.selectTrainPositions s3
    | (some _, s3) => s3

/-- `DatabaseManager::checkConnection` (lines 217-226). -/
def checkConnection (s : Sys) : Sys :=
  match testConnection s with
  | (true, s1) => s1
  | (false, s1) =>
    (connectToDatabase
      (emitConnectionChanged
        { s1 with m := { s1.m with
            m_isConnected := false,
            m_connectionStatus := "Connection Lost" } })).2

/-- `DatabaseManager::updateSignalState` (lines 228-255). -/
def updateSignalState (signalId : Int) (state : String) (s : Sys) : Sys :=
  if !s.m.m_isConnected then
    emit (.errorOccurred "Cannot update signal: Database not connected") s
  else
    match exec (.updateSignal state signalId) s with
    | (none, s1) =>
      let s2 : Sys := { s1 with db := s1.db.setSignalState state signalId }
      if s1.db.signalRowsMatching signalId = 0 then
        emit (.errorOccurred ("No signal found with ID " ++ toString signalId)) s2
      else s2
    | (some text, s1) =>
      let errorMsg := "Failed to update signal " ++ toString signalId ++ ": " ++ text
      logDatabaseError "Update Signal" text (emit (.errorOccurred errorMsg) s1)

/-- `DatabaseManager::updateTrainPosition` (lines 257-284). -/
def updateTrainPosition (trainId : Int) (position : String) (s : Sys) : Sys :=
  if !s.m.m_isConnected then
    emit (.errorOccurred "Cannot update train: Database not connected") s
  else
    match exec (.updateTrain position trainId) s with
    | (none, s1) =>
      let s2 : Sys := { s1 with db := s1.db.setTrainPosition position trainId }
      if s1.db.trainRowsMatching trainId = 0 then
        emit (.errorOccurred ("No train found with ID " ++ toString trainId)) s2
      else s2
    | (some text, s1) =>
      let errorMsg := "Failed to update train " ++ toString trainId ++ ": " ++ text
      logDatabaseError "Update Train Position" text (emit (.errorOccurred errorMsg) s1)

/-- The four `enter...Mode` functions (lines 329-348): `setInterval` on the
polling timer. -/
def setPollingInterval (ms : Nat) (s : Sys) : Sys :=
  { s with m := { s.m with m_statePollingTimer := { s.m.m_statePollingTimer with interval := ms } } }

/-- `DatabaseManager::enterTeleportationMode`. -/
def enterTeleportationMode (s : Sys) : Sys := setPollingInterval 1 s

/-- `DatabaseManager::enterRocketMode`. -/
def enterRocketMode (s : Sys) : Sys := setPollingInterval 10 s

/-- `DatabaseManager::enterSupercarMode`. -/
def enterSupercarMode (s : Sys) : Sys := setPollingInterval 50 s

/-- `DatabaseManager::enterNormalMode`. -/
def enterNormalMode (s : Sys) : Sys := setPollingInterval 200 s

/-- The member initialisers of the header and the two `setInterval` calls of the
constructor (lines 5-18), before it calls `connectToDatabase`. -/
def DatabaseManager.initial : DatabaseManager :=
  { m_databaseOpen := false,
    m_connectionTimer := { interval := 5000, active := false },
    m_statePollingTimer := { interval := 1, active := false },
    m_isConnected := false,
    m_connectionStatus := "Not Connected",
    m_lastKnownSignalStates := [],
    m_lastKnownTrainPositions := [] }

/-- The constructor `DatabaseManager::DatabaseManager` (lines 5-23) run against
the server `db`. -/
def construct (db : Db) : Sys :=
  (connectToDatabase { m := DatabaseManager.initial, db := db, out := [], propertyReads := [] }).2

/-! ## Runs of the system -/

/-- What can happen to the system: a call of a public member function or slot,
the timeout of one of the two timers, or the world outside changing the server
(other clients writing rows, the server going away or coming back). -/
inductive Op where
  | connectToDatabase
  | disconnectFromDatabase
  | testConnection
  | loadCurrentState
  | enterTeleportationMode
  | enterRocketMode
  | enterSupercarMode
  | enterNormalMode
  | updateSignalState (signalId : Int) (state : String)
  | updateTrainPosition (trainId : Int) (position : String)
  | checkConnection
  | pollDatabaseState
  | outside (signals : List SignalRow) (trains : List TrainRow)
      (signalSeq trainSeq : Int) (faults : List (Option String))
  deriving DecidableEq, Repr

/-- One step of the system. -/
def step (s : Sys) : Op → Sys
  | .connectToDatabase => (connectToDatabase s).2
  | .disconnectFromDatabase => disconnectFromDatabase s
  | .testConnection => (testConnection s).2
  | .loadCurrentState => loadCurrentState s
  | .enterTeleportationMode => enterTeleportationMode s
  | .enterRocketMode => enterRocketMode s
  | .enterSupercarMode => enterSupercarMode s
  | .enterNormalMode => enterNormalMode s
  | .updateSignalState signalId state => updateSignalState signalId state s
  | .updateTrainPosition trainId position => updateTrainPosition trainId position s
  | .checkConnection => checkConnection s
  | .pollDatabaseState => pollDatabaseState s
  | .outside signals trains signalSeq trainSeq faults =>
    { s with db := { s.db with
        railway_signals := signals,
        railway_trains := trains,
        signal_id_seq := signalSeq,
        train_id_seq := trainSeq,
        faults := faults } }

/-- The two private slots run only on the timeout of their timer, which fires
only while the timer is active. -/
def Op.enabled (s : Sys) : Op → Bool
  | .checkConnection => s.m.m_connectionTimer.active
  | .pollDatabaseState => s.m.m_statePollingTimer.active
  | _ => true

/-- The state after a sequence of steps. -/
def run (s : Sys) (ops : List Op) : Sys := ops.foldl step s

/-- The states the program can be in: those reached from the constructor by
enabled steps. -/
inductive Reachable : Sys → Prop where
  | start (db : Db) : Reachable (construct db)
  | next (s : Sys) (op : Op) : Reachable s → op.enabled s = true → Reachable (step s op)

/-- The signals emitted while `f` runs from state `s`. -/
def emittedBy (f : Sys → Sys) (s : Sys) : List Event := (f s).out.drop s.out.length

/-- The fetch of the signals in the poll cycle that starts in `s` succeeds: the
`exec` at line 179 returns true. -/
def Sys.signalFetchOk (s : Sys) : Prop := s.db.nextOutcome = none

/-- The fetch of the trains in the poll cycle that starts in `s` succeeds: the
`exec` at line 197, the second call of the cycle, returns true. -/
def Sys.trainFetchOk (s : Sys) : Prop := (s.db.call .pollSignals).2.nextOutcome = none

instance (s : Sys) : Decidable s.signalFetchOk := by
  unfold Sys.signalFetchOk; infer_instance

instance (s : Sys) : Decidable s.trainFetchOk := by
  unfold Sys.trainFetchOk; infer_instance

/-! ## Auxiliary functions used in the proofs -/

/-- Proof device: the cache after the diffing loop of `pollDatabaseState` has
processed `rows`. -/
def cacheAfter (cache : QMap) : List (Int × String) → QMap
  | [] => cache
  | (k, v) :: rest =>
    if QMap.find? cache k ≠ some v then cacheAfter (QMap.insert cache k v) rest
    else cacheAfter cache rest

/-- Proof device: the rows for which the diffing loop of `pollDatabaseState`
emits a signal. -/
def changedRows (cache : QMap) : List (Int × String) → List (Int × String)
  | [] => []
  | (k, v) :: rest =>
    if QMap.find? cache k ≠ some v then (k, v) :: changedRows (QMap.insert cache k v) rest
    else changedRows cache rest

/-- Proof device: the cache after the loop of `loadCurrentState` has processed `rows`. -/
def cacheLoaded (cache : QMap) : List (Int × String × String) → QMap
  | [] => cache
  | (k, v, _) :: rest => cacheLoaded (QMap.insert cache k v) rest

/-- Proof device: the result set of a fetch, empty when the fetch fails. -/
def Db.fetched {α : Type} (db : Db) (rows : List α) : List α :=
  match db.nextOutcome with
  | none => rows
  | some _ => []

/-! ## Example states -/

/-- Example server: one signal, id 1, showing RED; no trains; no failures ahead. -/
def exampleStore : Db :=
  { railway_signals := [⟨1, "Signal A1", "RED", "Platform A"⟩],
    railway_trains := [],
    signal_id_seq := 2,
    train_id_seq := 1,
    faults := [],
    received := [],
    opened := 1 }

/-- Example manager state: connected, both timers running, nothing cached yet. -/
def exampleManager : DatabaseManager :=
  { m_databaseOpen := true,
    m_connectionTimer := { interval := 5000, active := true },
    m_statePollingTimer := { interval := 1, active := true },
    m_isConnected := true,
    m_connectionStatus := "Connected to PostgreSQL",
    m_lastKnownSignalStates := [],
    m_lastKnownTrainPositions := [] }

/-- Example system: `exampleManager` connected to `exampleStore`. -/
def exampleSys : Sys :=
  { m := exampleManager, db := exampleStore, out := [], propertyReads := [] }

/-- Example of a change made by another client: signal 1 is set to GREEN. -/
def exampleGreen : Op :=
  .outside [⟨1, "Signal A1", "GREEN", "Platform A"⟩] [] 2 1 []

/-- Example of a change made by other clients: two signals stored out of id
order, and one train. -/
def exampleTwoSignals : Op :=
  .outside [⟨5, "Signal B2", "GREEN", "Junction B"⟩, ⟨1, "Signal A1", "RED", "Platform A"⟩]
    [⟨3, "Train 001", "Platform A", "STOPPED"⟩] 6 4 []

/-- Example system in which a poll has already cached two signals and a train. -/
def exampleCached : Sys := pollDatabaseState (step exampleSys exampleTwoSignals)

/-- Example of the server going away: the next two calls fail. -/
def exampleOutage : Op :=
  .outside [⟨1, "Signal A1", "RED", "Platform A"⟩] [] 2 1
    [some "server closed the connection unexpectedly", some "could not connect to server"]

/-- Example state: the constructor has connected to `exampleStore`, the server
has gone away, and the health-check timer has fired once. -/
def exampleLost : Sys :=
  step (step (construct exampleStore) exampleOutage) .checkConnection

/-- Proof device: the connection part of the state: handle, flag, status text,
the two timers, and the number of successful `open()` calls. -/
def Sys.conn (s : Sys) : Bool × Bool × String × QTimer × QTimer × Nat :=
  (s.m.m_databaseOpen, s.m.m_isConnected, s.m.m_connectionStatus,
    s.m.m_connectionTimer, s.m.m_statePollingTimer, s.db.opened)

/-- Example state: connected to `exampleStore` when the server goes away. -/
def exampleDown : Sys := step (construct exampleStore) exampleOutage

/-- Proof device: the state right after a successful `open()` in
`connectToDatabase` (lines 52-53). -/
def afterOpen (s : Sys) : Sys :=
  { m := { s.m with
      m_databaseOpen := true,
      m_isConnected := true,
      m_connectionStatus := "Connected to PostgreSQL" },
    db := { (s.db.call .openConnection).2 with
      opened := (s.db.call .openConnection).2.opened + 1 },
    out := s.out,
    propertyReads := s.propertyReads }

/-- Proof device: `start()` on both timers in `connectToDatabase` (lines 60-61). -/
def startTimers (s : Sys) : Sys :=
  { s with m := { s.m with
      m_connectionTimer := { s.m.m_connectionTimer with active := true },
      m_statePollingTimer := { s.m.m_statePollingTimer with active := true } } }

/-- Example state: connected to `exampleStore`, with signal 1 cached as RED and a
cache entry left over for a signal 7 that is no longer stored; the next call to
the server fails. -/
def exampleStale : Sys :=
  { m := { exampleManager with m_lastKnownSignalStates := [(1, "RED"), (7, "YELLOW")] },
    db := { exampleStore with faults := [some "server closed the connection unexpectedly"] },
    out := [],
    propertyReads := [] }

/-- Example of a failing read: another client has set signal 1 to GREEN and moved
train 3, and the next call to the server fails. -/
def exampleReadFails : Op :=
  .outside [⟨1, "Signal A1", "GREEN", "Platform A"⟩]
    [⟨3, "Train 001", "Junction B", "MOVING"⟩] 2 4
    [some "server closed the connection unexpectedly"]

/-- Example state: the constructor has connected to `exampleStore` and loaded
its rows; then another client has set signal 1 to GREEN and replaced the trains
by train 3, and the next call to the server fails. -/
def exampleMissedRead : Sys := step (construct exampleStore) exampleReadFails

/-- Example of a failing read of the trains: as `exampleReadFails`, but the next
call succeeds and the one after it fails. -/
def exampleTrainReadFails : Op :=
  .outside [⟨1, "Signal A1", "GREEN", "Platform A"⟩]
    [⟨3, "Train 001", "Junction B", "MOVING"⟩] 2 4
    [none, some "server closed the connection unexpectedly"]

/-- Example state: everything stored is cached (`exampleCached`), the next call
to the server succeeds, the one after it fails, and the following ones succeed. -/
def exampleWriteOnly : Sys :=
  step exampleCached
    (.outside [⟨5, "Signal B2", "GREEN", "Junction B"⟩, ⟨1, "Signal A1", "RED", "Platform A"⟩]
      [⟨3, "Train 001", "Platform A", "STOPPED"⟩] 6 4
      [none, some "server closed the connection unexpectedly"])

/-! ## Lemmas on `QMap` -/

theorem QMap.find?_insert_self (m : QMap) (k : Int) (v : String) :
    QMap.find? (QMap.insert m k v) k = some v := by
  induction m with
  | nil => simp [QMap.insert, QMap.find?]
  | cons h t ih =>
    obtain ⟨k1, v1⟩ := h
    unfold QMap.insert
    split
    · simp [QMap.find?]
    · split
      · simp [QMap.find?]
      · rename_i h1 h2
        simp [QMap.find?, h2, ih]

theorem QMap.find?_insert_ne (m : QMap) (k j : Int) (v : String) (h : j ≠ k) :
    QMap.find? (QMap.insert m k v) j = QMap.find? m j := by
  induction m with
  | nil => simp [QMap.insert, QMap.find?, h]
  | cons hd t ih =>
    obtain ⟨k1, v1⟩ := hd
    unfold QMap.insert
    split
    · simp [QMap.find?, h]
    · split
      · rename_i h1 h2
        subst h2
        simp [QMap.find?, h]
      · simp [QMap.find?, ih]

/-- The test of the diffing loop is "absent or different". -/
theorem QMap.changed_iff (m : QMap) (k : Int) (v : String) :
    ((!QMap.contains m k || QMap.value m k != v) = true) ↔ QMap.find? m k ≠ some v := by
  unfold QMap.contains QMap.value
  cases h : QMap.find? m k with
  | none => simp
  | some w => simp

/-! ## Lemmas on the diffing loop -/

theorem changedRows_eq_filter (rows : List (Int × String)) :
    ∀ (c c0 : QMap), (∀ r ∈ rows, QMap.find? c r.1 = QMap.find? c0 r.1) →
      (rows.map Prod.fst).Nodup →
      changedRows c rows = rows.filter (fun r => decide (QMap.find? c0 r.1 ≠ some r.2)) := by
  induction rows with
  | nil => intro c c0 _ _; rfl
  | cons hd t ih =>
    intro c c0 hagree hnd
    obtain ⟨k, v⟩ := hd
    have hk : QMap.find? c k = QMap.find? c0 k := hagree (k, v) (List.mem_cons_self _ _)
    have hnd2 : k ∉ t.map Prod.fst ∧ (t.map Prod.fst).Nodup := by
      simpa using hnd
    have hne : ∀ r ∈ t, r.1 ≠ k := by
      intro r hr heq
      exact hnd2.1 (heq ▸ List.mem_map_of_mem Prod.fst hr)
    unfold changedRows
    by_cases hch : QMap.find? c k = some v
    · have hch0 : QMap.find? c0 k = some v := hk ▸ hch
      have ht := ih c c0 (fun r hr => hagree r (List.mem_cons_of_mem _ hr)) hnd2.2
      simp [hch, hch0, ht]
    · have hch0 : ¬ QMap.find? c0 k = some v := fun h => hch (hk.trans h)
      have ht := ih (QMap.insert c k v) c0
        (fun r hr => by
          rw [QMap.find?_insert_ne c k r.1 v (hne r hr)]
          exact hagree r (List.mem_cons_of_mem _ hr)) hnd2.2
      simp [hch, hch0, ht]

theorem find?_cacheAfter_of_not_mem (rows : List (Int × String)) :
    ∀ (c : QMap) (k : Int), k ∉ rows.map Prod.fst →
      QMap.find? (cacheAfter c rows) k = QMap.find? c k := by
  induction rows with
  | nil => intro c k _; rfl
  | cons hd t ih =>
    intro c k hk
    obtain ⟨k1, v1⟩ := hd
    have hk2 : k ≠ k1 ∧ k ∉ t.map Prod.fst := by simpa using hk
    unfold cacheAfter
    split
    · rw [ih _ k hk2.2, QMap.find?_insert_ne c k1 k v1 hk2.1]
    · exact ih c k hk2.2

theorem find?_cacheAfter_of_mem (rows : List (Int × String)) :
    ∀ (c : QMap), (rows.map Prod.fst).Nodup → ∀ r ∈ rows,
      QMap.find? (cacheAfter c rows) r.1 = some r.2 := by
  induction rows with
  | nil => intro c _ r hr; cases hr
  | cons hd t ih =>
    intro c hnd r hr
    obtain ⟨k, v⟩ := hd
    have hnd2 : k ∉ t.map Prod.fst ∧ (t.map Prod.fst).Nodup := by
      simpa using hnd
    rcases List.mem_cons.1 hr with rfl | hr
    · unfold cacheAfter
      split
      · rw [find?_cacheAfter_of_not_mem t _ k hnd2.1, QMap.find?_insert_self]
      · rename_i h
        rw [find?_cacheAfter_of_not_mem t _ k hnd2.1]
        exact not_not.1 h
    · unfold cacheAfter
      split
      · exact ih _ hnd2.2 r hr
      · exact ih _ hnd2.2 r hr

/-- A cache that already holds every row is left as it is, and nothing is emitted. -/
theorem diff_of_up_to_date (rows : List (Int × String)) (c : QMap)
    (h : ∀ r ∈ rows, QMap.find? c r.1 = some r.2) :
    cacheAfter c rows = c ∧ changedRows c rows = [] := by
  induction rows with
  | nil => exact ⟨rfl, rfl⟩
  | cons hd t ih =>
    obtain ⟨k, v⟩ := hd
    have hk : QMap.find? c k = some v := h (k, v) (List.mem_cons_self _ _)
    have ht := ih (fun r hr => h r (List.mem_cons_of_mem _ hr))
    unfold cacheAfter changedRows
    simp [hk, ht]

/-- The first row of an id decides whether a signal for that id is emitted. -/
theorem mem_changedRows (rows : List (Int × String)) :
    ∀ (c : QMap) (k : Int) (v : String), (k, v) ∈ rows →
      (∀ r ∈ rows, r.1 = k → r.2 = v) → QMap.find? c k ≠ some v →
      (k, v) ∈ changedRows c rows := by
  induction rows with
  | nil => intro c k v hm; cases hm
  | cons hd t ih =>
    intro c k v hm hall hc
    obtain ⟨k1, v1⟩ := hd
    by_cases hk : k1 = k
    · subst hk
      have hv : v1 = v := hall (k1, v1) (List.mem_cons_self _ _) rfl
      subst hv
      unfold changedRows
      simp [hc]
    · have hm2 : (k, v) ∈ t := by
        rcases List.mem_cons.1 hm with h | h
        · exact absurd (congrArg Prod.fst h).symm hk
        · exact h
      have hall2 : ∀ r ∈ t, r.1 = k → r.2 = v := fun r hr => hall r (List.mem_cons_of_mem _ hr)
      unfold changedRows
      split
      · refine List.mem_cons_of_mem _ (ih _ k v hm2 hall2 ?_)
        rw [QMap.find?_insert_ne c k1 k v1 (Ne.symm hk)]
        exact hc
      · exact ih c k v hm2 hall2 hc

theorem changedRows_sublist (rows : List (Int × String)) :
    ∀ c : QMap, List.Sublist (changedRows c rows) rows := by
  induction rows with
  | nil => intro c; exact List.Sublist.refl _
  | cons hd t ih =>
    intro c
    obtain ⟨k, v⟩ := hd
    unfold changedRows
    split
    · exact (ih _).cons₂ _
    · exact (ih _).cons _

theorem find?_cacheLoaded_of_not_mem (rows : List (Int × String × String)) :
    ∀ (c : QMap) (k : Int), k ∉ rows.map Prod.fst →
      QMap.find? (cacheLoaded c rows) k = QMap.find? c k := by
  induction rows with
  | nil => intro c k _; rfl
  | cons hd t ih =>
    intro c k hk
    obtain ⟨k1, v1, n1⟩ := hd
    have hk2 : k ≠ k1 ∧ k ∉ t.map Prod.fst := by simpa using hk
    unfold cacheLoaded
    rw [ih _ k hk2.2, QMap.find?_insert_ne c k1 k v1 hk2.1]

theorem find?_cacheLoaded_of_mem (rows : List (Int × String × String)) :
    ∀ (c : QMap), (rows.map Prod.fst).Nodup → ∀ r ∈ rows,
      QMap.find? (cacheLoaded c rows) r.1 = some r.2.1 := by
  induction rows with
  | nil => intro c _ r hr; cases hr
  | cons hd t ih =>
    intro c hnd r hr
    obtain ⟨k, v, n⟩ := hd
    have hnd2 : k ∉ t.map Prod.fst ∧ (t.map Prod.fst).Nodup := by
      simpa using hnd
    rcases List.mem_cons.1 hr with rfl | hr
    · unfold cacheLoaded
      rw [find?_cacheLoaded_of_not_mem t _ k hnd2.1, QMap.find?_insert_self]
    · unfold cacheLoaded
      exact ih _ hnd2.2 r hr

/-! ## The loops of the program in terms of the auxiliary functions -/

theorem pollSignalRows_eq (rows : List (Int × String)) :
    ∀ s : Sys, pollSignalRows rows s =
      { s with
        m := { s.m with
          m_lastKnownSignalStates := cacheAfter s.m.m_lastKnownSignalStates rows },
        out := s.out ++ (changedRows s.m.m_lastKnownSignalStates rows).map
          (fun r => Event.signalStateChanged r.1 r.2) } := by
  induction rows with
  | nil => intro s; simp [pollSignalRows, cacheAfter, changedRows]
  | cons hd t ih =>
    intro s
    obtain ⟨k, v⟩ := hd
    unfold pollSignalRows cacheAfter changedRows
    by_cases h : QMap.find? s.m.m_lastKnownSignalStates k = some v
    · have hc : ¬ ((!QMap.contains s.m.m_lastKnownSignalStates k ||
          QMap.value s.m.m_lastKnownSignalStates k != v) = true) :=
        fun hh => (QMap.changed_iff _ k v).1 hh h
      rw [if_neg hc, ih]
      simp [h]
    · have hc : (!QMap.contains s.m.m_lastKnownSignalStates k ||
          QMap.value s.m.m_lastKnownSignalStates k != v) = true :=
        (QMap.changed_iff _ k v).2 h
      rw [if_pos hc, ih]
      simp [h, emit]

theorem pollTrainRows_eq (rows : List (Int × String)) :
    ∀ s : Sys, pollTrainRows rows s =
      { s with
        m := { s.m with
          m_lastKnownTrainPositions := cacheAfter s.m.m_lastKnownTrainPositions rows },
        out := s.out ++ (changedRows s.m.m_lastKnownTrainPositions rows).map
          (fun r => Event.trainPositionChanged r.1 r.2) } := by
  induction rows with
  | nil => intro s; simp [pollTrainRows, cacheAfter, changedRows]
  | cons hd t ih =>
    intro s
    obtain ⟨k, v⟩ := hd
    unfold pollTrainRows cacheAfter changedRows
    by_cases h : QMap.find? s.m.m_lastKnownTrainPositions k = some v
    · have hc : ¬ ((!QMap.contains s.m.m_lastKnownTrainPositions k ||
          QMap.value s.m.m_lastKnownTrainPositions k != v) = true) :=
        fun hh => (QMap.changed_iff _ k v).1 hh h
      rw [if_neg hc, ih]
      simp [h]
    · have hc : (!QMap.contains s.m.m_lastKnownTrainPositions k ||
          QMap.value s.m.m_lastKnownTrainPositions k != v) = true :=
        (QMap.changed_iff _ k v).2 h
      rw [if_pos hc, ih]
      simp [h, emit]

theorem loadSignalRows_eq (rows : List (Int × String × String)) :
    ∀ s : Sys, loadSignalRows rows s =
      { s with
        m := { s.m with
          m_lastKnownSignalStates := cacheLoaded s.m.m_lastKnownSignalStates rows },
        out := s.out ++ rows.map (fun r => Event.signalStateChanged r.1 r.2.1) } := by
  induction rows with
  | nil => intro s; simp [loadSignalRows, cacheLoaded]
  | cons hd t ih =>
    intro s
    obtain ⟨k, v, n⟩ := hd
    unfold loadSignalRows cacheLoaded
    rw [ih]
    simp [emit]

theorem loadTrainRows_eq (rows : List (Int × String × String)) :
    ∀ s : Sys, loadTrainRows rows s =
      { s with
        m := { s.m with
          m_lastKnownTrainPositions := cacheLoaded s.m.m_lastKnownTrainPositions rows },
        out := s.out ++ rows.map (fun r => Event.trainPositionChanged r.1 r.2.1) } := by
  induction rows with
  | nil => intro s; simp [loadTrainRows, cacheLoaded]
  | cons hd t ih =>
    intro s
    obtain ⟨k, v, n⟩ := hd
    unfold loadTrainRows cacheLoaded
    rw [ih]
    simp [emit]

/-! ## Calls to the server -/

theorem exec_eq (q : Stmt) (s : Sys) :
    exec q s = (s.db.nextOutcome, { s with db := (s.db.call q).2 }) := rfl

@[simp] theorem Db.call_signals (db : Db) (q : Stmt) :
    (db.call q).2.railway_signals = db.railway_signals := rfl

@[simp] theorem Db.call_trains (db : Db) (q : Stmt) :
    (db.call q).2.railway_trains = db.railway_trains := rfl

@[simp] theorem Db.call_opened (db : Db) (q : Stmt) :
    (db.call q).2.opened = db.opened := rfl

@[simp] theorem Db.call_faults (db : Db) (q : Stmt) :
    (db.call q).2.faults = db.faults.tail := rfl

@[simp] theorem Db.call_selectSignalStates (db : Db) (q : Stmt) :
    (db.call q).2.selectSignalStates = db.selectSignalStates := rfl

@[simp] theorem Db.call_selectTrainPositions (db : Db) (q : Stmt) :
    (db.call q).2.selectTrainPositions = db.selectTrainPositions := rfl

@[simp] theorem Db.call_selectSignalStatesNames (db : Db) (q : Stmt) :
    (db.call q).2.selectSignalStatesNames = db.selectSignalStatesNames := rfl

@[simp] theorem Db.call_selectTrainPositionsNames (db : Db) (q : Stmt) :
    (db.call q).2.selectTrainPositionsNames = db.selectTrainPositionsNames := rfl

theorem Db.call_primaryKeys (db : Db) (q : Stmt) (h : db.PrimaryKeys) :
    (db.call q).2.PrimaryKeys := h

theorem Db.nextOk_succ (db : Db) (q : Stmt) (n : Nat) (h : db.NextOk (n + 1)) :
    db.nextOutcome = none ∧ (db.call q).2.NextOk n := by
  unfold Db.NextOk at *
  unfold Db.nextOutcome
  cases hf : db.faults with
  | nil => simp [hf]
  | cons f rest =>
    rw [hf] at h
    simp only [List.take_succ_cons, List.mem_cons, forall_eq_or_imp] at h
    simp only [Db.call_faults, hf, List.tail_cons]
    exact ⟨h.1, h.2⟩

theorem Db.fetched_of_ok {α : Type} (db : Db) (rows : List α) (h : db.nextOutcome = none) :
    db.fetched rows = rows := by
  simp [Db.fetched, h]

/-- A poll cycle while connected, written out: two calls to the server, each
collection diffed against its cache when its fetch succeeded. -/
theorem pollDatabaseState_eq (s : Sys) (hc : s.m.m_isConnected = true) :
    pollDatabaseState s =
      { m := { s.m with
          m_lastKnownSignalStates :=
            cacheAfter s.m.m_lastKnownSignalStates (s.db.fetched s.db.selectSignalStates),
          m_lastKnownTrainPositions :=
            cacheAfter s.m.m_lastKnownTrainPositions
              ((s.db.call .pollSignals).2.fetched s.db.selectTrainPositions) },
        db := ((s.db.call .pollSignals).2.call .pollTrains).2,
        out := s.out ++
          (changedRows s.m.m_lastKnownSignalStates
            (s.db.fetched s.db.selectSignalStates)).map
              (fun r => Event.signalStateChanged r.1 r.2) ++
          (changedRows s.m.m_lastKnownTrainPositions
            ((s.db.call .pollSignals).2.fetched s.db.selectTrainPositions)).map
              (fun r => Event.trainPositionChanged r.1 r.2),
        propertyReads := s.propertyReads } := by
  have hn : ¬ ((!s.m.m_isConnected) = true) := by simp [hc]
  unfold pollDatabaseState
  rw [if_neg hn]
  unfold Db.fetched
  cases h1 : s.db.nextOutcome with
  | none =>
    cases h2 : (s.db.call Stmt.pollSignals).2.nextOutcome with
    | none =>
      simp only [exec_eq, h1, h2, pollSignalRows_eq, pollTrainRows_eq,
        Db.call_selectSignalStates, Db.call_selectTrainPositions, List.append_assoc, hc]
    | some e2 =>
      simp only [exec_eq, h1, h2, pollSignalRows_eq, pollTrainRows_eq,
        Db.call_selectSignalStates, Db.call_selectTrainPositions, List.append_assoc,
        cacheAfter, changedRows, List.map_nil, List.append_nil, hc]
  | some e1 =>
    cases h2 : (s.db.call Stmt.pollSignals).2.nextOutcome with
    | none =>
      simp only [exec_eq, h1, h2, pollSignalRows_eq, pollTrainRows_eq,
        Db.call_selectSignalStates, Db.call_selectTrainPositions, List.append_assoc,
        cacheAfter, changedRows, List.map_nil, List.append_nil, hc]
    | some e2 =>
      simp only [exec_eq, h1, h2, pollSignalRows_eq, pollTrainRows_eq,
        Db.call_selectSignalStates, Db.call_selectTrainPositions, List.append_assoc,
        cacheAfter, changedRows, List.map_nil, List.append_nil]

/-! ## Result sets -/

theorem Db.selectSignalStates_ids (db : Db) :
    db.selectSignalStates.map Prod.fst = db.signalsById.map (fun r => r.signal_id) := by
  simp [Db.selectSignalStates, List.map_map, Function.comp_def]

theorem Db.selectTrainPositions_ids (db : Db) :
    db.selectTrainPositions.map Prod.fst = db.trainsById.map (fun r => r.train_id) := by
  simp [Db.selectTrainPositions, List.map_map, Function.comp_def]

theorem Db.selectSignalStatesNames_ids (db : Db) :
    db.selectSignalStatesNames.map Prod.fst = db.signalsById.map (fun r => r.signal_id) := by
  simp [Db.selectSignalStatesNames, List.map_map, Function.comp_def]

theorem Db.selectTrainPositionsNames_ids (db : Db) :
    db.selectTrainPositionsNames.map Prod.fst = db.trainsById.map (fun r => r.train_id) := by
  simp [Db.selectTrainPositionsNames, List.map_map, Function.comp_def]

theorem Db.signalsById_nodup (db : Db) (h : db.PrimaryKeys) :
    (db.signalsById.map (fun r => r.signal_id)).Nodup :=
  (((List.perm_insertionSort _ db.railway_signals).map _).nodup_iff).2 h.1

theorem Db.trainsById_nodup (db : Db) (h : db.PrimaryKeys) :
    (db.trainsById.map (fun r => r.train_id)).Nodup :=
  (((List.perm_insertionSort _ db.railway_trains).map _).nodup_iff).2 h.2

theorem Db.signalsById_sorted (db : Db) :
    (db.signalsById.map (fun r => r.signal_id)).Sorted (· ≤ ·) := by
  haveI : IsTotal SignalRow (fun a b => a.signal_id ≤ b.signal_id) :=
    ⟨fun a b => le_total a.signal_id b.signal_id⟩
  haveI : IsTrans SignalRow (fun a b => a.signal_id ≤ b.signal_id) :=
    ⟨fun a b c hab hbc => le_trans hab hbc⟩
  have h := List.sorted_insertionSort (fun a b : SignalRow => a.signal_id ≤ b.signal_id)
    db.railway_signals
  exact List.pairwise_map.2 h

theorem Db.trainsById_sorted (db : Db) :
    (db.trainsById.map (fun r => r.train_id)).Sorted (· ≤ ·) := by
  haveI : IsTotal TrainRow (fun a b => a.train_id ≤ b.train_id) :=
    ⟨fun a b => le_total a.train_id b.train_id⟩
  haveI : IsTrans TrainRow (fun a b => a.train_id ≤ b.train_id) :=
    ⟨fun a b c hab hbc => le_trans hab hbc⟩
  have h := List.sorted_insertionSort (fun a b : TrainRow => a.train_id ≤ b.train_id)
    db.railway_trains
  exact List.pairwise_map.2 h

theorem Db.selectSignalStates_nodup (db : Db) (h : db.PrimaryKeys) :
    (db.selectSignalStates.map Prod.fst).Nodup := by
  rw [Db.selectSignalStates_ids]; exact db.signalsById_nodup h

theorem Db.selectTrainPositions_nodup (db : Db) (h : db.PrimaryKeys) :
    (db.selectTrainPositions.map Prod.fst).Nodup := by
  rw [Db.selectTrainPositions_ids]; exact db.trainsById_nodup h

theorem Db.selectSignalStates_strict (db : Db) (h : db.PrimaryKeys) :
    (db.selectSignalStates.map Prod.fst).Sorted (· < ·) := by
  rw [Db.selectSignalStates_ids]
  exact (db.signalsById_sorted).lt_of_le (db.signalsById_nodup h)

theorem Db.selectTrainPositions_strict (db : Db) (h : db.PrimaryKeys) :
    (db.selectTrainPositions.map Prod.fst).Sorted (· < ·) := by
  rw [Db.selectTrainPositions_ids]
  exact (db.trainsById_sorted).lt_of_le (db.trainsById_nodup h)

theorem Db.fetched_sublist {α : Type} (db : Db) (rows : List α) :
    List.Sublist (db.fetched rows) rows := by
  unfold Db.fetched
  split
  · exact List.Sublist.refl _
  · exact List.nil_sublist _

theorem emittedBy_eq (f : Sys → Sys) (s : Sys) (evs : List Event)
    (h : (f s).out = s.out ++ evs) : emittedBy f s = evs := by
  unfold emittedBy
  rw [h, List.drop_left]

/-! ## The poll cycle -/

theorem pollDatabaseState_not_connected (s : Sys) (h : s.m.m_isConnected = false) :
    pollDatabaseState s = s := by
  unfold pollDatabaseState
  simp [h]

/-- C10. Ordering: on tables that respect their primary keys, the signals emitted
by one `pollDatabaseState` cycle are the signal changes followed by the train
changes, and within each collection the entity ids are strictly ascending, so
no id occurs twice. -/
theorem pollDatabaseState_ascending (s : Sys) (hpk : s.db.PrimaryKeys) :
    ∃ sig tr : List (Int × String),
      emittedBy pollDatabaseState s =
          sig.map (fun r => Event.signalStateChanged r.1 r.2) ++
          tr.map (fun r => Event.trainPositionChanged r.1 r.2) ∧
        (sig.map Prod.fst).Sorted (· < ·) ∧ (tr.map Prod.fst).Sorted (· < ·) ∧
        (sig.map Prod.fst).Nodup ∧ (tr.map Prod.fst).Nodup := by
  cases hc : s.m.m_isConnected with
  | false =>
    refine ⟨[], [], ?_, List.sorted_nil, List.sorted_nil, List.nodup_nil, List.nodup_nil⟩
    apply emittedBy_eq
    rw [pollDatabaseState_not_connected s hc]
    simp
  | true =>
    have e := pollDatabaseState_eq s hc
    have hs : ((changedRows s.m.m_lastKnownSignalStates
        (s.db.fetched s.db.selectSignalStates)).map Prod.fst).Sorted (· < ·) :=
      List.Pairwise.sublist
        (((changedRows_sublist _ _).trans (Db.fetched_sublist _ _)).map Prod.fst)
        (s.db.selectSignalStates_strict hpk)
    have ht : ((changedRows s.m.m_lastKnownTrainPositions
        ((s.db.call .pollSignals).2.fetched s.db.selectTrainPositions)).map
          Prod.fst).Sorted (· < ·) :=
      List.Pairwise.sublist
        (((changedRows_sublist _ _).trans (Db.fetched_sublist _ _)).map Prod.fst)
        (s.db.selectTrainPositions_strict hpk)
    refine ⟨_, _, ?_, hs, ht, hs.nodup, ht.nodup⟩
    apply emittedBy_eq
    rw [e]
    simp only [List.append_assoc]

/-- Witness of C10: two signals stored out of id order, both new to the cache. -/
theorem pollDatabaseState_ascending_witness :
    (step exampleSys exampleTwoSignals).db.PrimaryKeys ∧
      emittedBy pollDatabaseState (step exampleSys exampleTwoSignals) =
        [Event.signalStateChanged 1 "RED", Event.signalStateChanged 5 "GREEN",
          Event.trainPositionChanged 3 "Platform A"] ∧
      ∃ sig tr : List (Int × String),
        emittedBy pollDatabaseState (step exampleSys exampleTwoSignals) =
            sig.map (fun r => Event.signalStateChanged r.1 r.2) ++
            tr.map (fun r => Event.trainPositionChanged r.1 r.2) ∧
          (sig.map Prod.fst).Sorted (· < ·) ∧ (tr.map Prod.fst).Sorted (· < ·) ∧
          (sig.map Prod.fst).Nodup ∧ (tr.map Prod.fst).Nodup :=
  ⟨by decide, by decide,
    pollDatabaseState_ascending (step exampleSys exampleTwoSignals) (by decide)⟩

/-! ## Writes -/

theorem updateSignalState_not_connected (signalId : Int) (state : String) (s : Sys)
    (h : s.m.m_isConnected = false) :
    updateSignalState signalId state s =
      emit (.errorOccurred "Cannot update signal: Database not connected") s := by
  unfold updateSignalState
  simp [h]

theorem updateTrainPosition_not_connected (trainId : Int) (position : String) (s : Sys)
    (h : s.m.m_isConnected = false) :
    updateTrainPosition trainId position s =
      emit (.errorOccurred "Cannot update train: Database not connected") s := by
  unfold updateTrainPosition
  simp [h]

theorem updateSignalState_ok (signalId : Int) (state : String) (s : Sys)
    (hc : s.m.m_isConnected = true) (hn : s.db.nextOutcome = none) :
    updateSignalState signalId state s =
      if s.db.signalRowsMatching signalId = 0 then
        emit (.errorOccurred ("No signal found with ID " ++ toString signalId))
          { s with db := (s.db.call (.updateSignal state signalId)).2.setSignalState state signalId }
      else
        { s with db := (s.db.call (.updateSignal state signalId)).2.setSignalState state signalId } := by
  unfold updateSignalState
  simp only [hc, exec_eq, hn, Bool.not_true, Bool.false_eq_true, if_false]
  rfl

theorem updateTrainPosition_ok (trainId : Int) (position : String) (s : Sys)
    (hc : s.m.m_isConnected = true) (hn : s.db.nextOutcome = none) :
    updateTrainPosition trainId position s =
      if s.db.trainRowsMatching trainId = 0 then
        emit (.errorOccurred ("No train found with ID " ++ toString trainId))
          { s with db := (s.db.call (.updateTrain position trainId)).2.setTrainPosition position trainId }
      else
        { s with db := (s.db.call (.updateTrain position trainId)).2.setTrainPosition position trainId } := by
  unfold updateTrainPosition
  simp only [hc, exec_eq, hn, Bool.not_true, Bool.false_eq_true, if_false]
  rfl

theorem updateSignalState_failed (signalId : Int) (state : String) (s : Sys) (text : String)
    (hc : s.m.m_isConnected = true) (hn : s.db.nextOutcome = some text) :
    updateSignalState signalId state s =
      { s with
        db := (s.db.call (.updateSignal state signalId)).2,
        out := s.out ++
          [.errorOccurred ("Failed to update signal " ++ toString signalId ++ ": " ++ text),
           .errorOccurred ("❌ Database " ++ "Update Signal" ++ " Error: " ++ text)] } := by
  unfold updateSignalState
  simp only [hc, exec_eq, hn, Bool.not_true, Bool.false_eq_true, if_false, logDatabaseError,
    emit, List.append_assoc, List.singleton_append]

theorem updateTrainPosition_failed (trainId : Int) (position : String) (s : Sys) (text : String)
    (hc : s.m.m_isConnected = true) (hn : s.db.nextOutcome = some text) :
    updateTrainPosition trainId position s =
      { s with
        db := (s.db.call (.updateTrain position trainId)).2,
        out := s.out ++
          [.errorOccurred ("Failed to update train " ++ toString trainId ++ ": " ++ text),
           .errorOccurred ("❌ Database " ++ "Update Train Position" ++ " Error: " ++ text)] } := by
  unfold updateTrainPosition
  simp only [hc, exec_eq, hn, Bool.not_true, Bool.false_eq_true, if_false, logDatabaseError,
    emit, List.append_assoc, List.singleton_append]

/-- C6. Disconnected write rejection: while `m_isConnected` is false,
`updateSignalState` and `updateTrainPosition` emit exactly one `errorOccurred`
with the not-connected message and do nothing else: no call reaches the server
(the server, its tables and the record of received calls are unchanged) and the
manager, connection state and caches included, is unchanged. -/
theorem update_rejected_when_not_connected (s : Sys) (h : s.m.m_isConnected = false)
    (signalId trainId : Int) (state position : String) :
    (emittedBy (updateSignalState signalId state) s =
          [Event.errorOccurred "Cannot update signal: Database not connected"] ∧
        (updateSignalState signalId state s).db = s.db ∧
        (updateSignalState signalId state s).m = s.m) ∧
      (emittedBy (updateTrainPosition trainId position) s =
          [Event.errorOccurred "Cannot update train: Database not connected"] ∧
        (updateTrainPosition trainId position s).db = s.db ∧
        (updateTrainPosition trainId position s).m = s.m) := by
  refine ⟨⟨?_, ?_, ?_⟩, ?_, ?_, ?_⟩
  · apply emittedBy_eq
    rw [updateSignalState_not_connected _ _ _ h]; rfl
  · rw [updateSignalState_not_connected _ _ _ h]; rfl
  · rw [updateSignalState_not_connected _ _ _ h]; rfl
  · apply emittedBy_eq
    rw [updateTrainPosition_not_connected _ _ _ h]; rfl
  · rw [updateTrainPosition_not_connected _ _ _ h]; rfl
  · rw [updateTrainPosition_not_connected _ _ _ h]; rfl

/-- Witness of C6: the example system after `disconnectFromDatabase`. -/
theorem update_rejected_when_not_connected_witness :
    (disconnectFromDatabase exampleSys).m.m_isConnected = false ∧
      (updateSignalState 1 "GREEN" (disconnectFromDatabase exampleSys)).db = exampleStore ∧
      (updateTrainPosition 1 "Junction B" (disconnectFromDatabase exampleSys)).db =
        exampleStore :=
  ⟨by decide,
    (update_rejected_when_not_connected (disconnectFromDatabase exampleSys) (by decide)
      1 1 "GREEN" "Junction B").1.2.1.trans (by decide),
    (update_rejected_when_not_connected (disconnectFromDatabase exampleSys) (by decide)
      1 1 "GREEN" "Junction B").2.2.1.trans (by decide)⟩

theorem Db.mem_selectSignalStates (db : Db) (r : Int × String) :
    r ∈ db.selectSignalStates ↔ ∃ row ∈ db.railway_signals, (row.signal_id, row.state) = r := by
  simp [Db.selectSignalStates, Db.signalsById, List.mem_insertionSort]

theorem Db.mem_selectTrainPositions (db : Db) (r : Int × String) :
    r ∈ db.selectTrainPositions ↔
      ∃ row ∈ db.railway_trains, (row.train_id, row.current_position) = r := by
  simp [Db.selectTrainPositions, Db.trainsById, List.mem_insertionSort]

theorem Db.setSignalState_of_no_match (db : Db) (state : String) (signalId : Int)
    (h : db.signalRowsMatching signalId = 0) :
    (db.setSignalState state signalId).railway_signals = db.railway_signals := by
  unfold Db.signalRowsMatching at h
  have hne : ∀ r ∈ db.railway_signals, ¬ r.signal_id = signalId := by
    simpa [List.filter_eq_nil_iff] using h
  show db.railway_signals.map _ = db.railway_signals
  conv_rhs => rw [← List.map_id db.railway_signals]
  apply List.map_congr_left
  intro r hr
  simp [hne r hr]

theorem Db.setTrainPosition_of_no_match (db : Db) (position : String) (trainId : Int)
    (h : db.trainRowsMatching trainId = 0) :
    (db.setTrainPosition position trainId).railway_trains = db.railway_trains := by
  unfold Db.trainRowsMatching at h
  have hne : ∀ r ∈ db.railway_trains, ¬ r.train_id = trainId := by
    simpa [List.filter_eq_nil_iff] using h
  show db.railway_trains.map _ = db.railway_trains
  conv_rhs => rw [← List.map_id db.railway_trains]
  apply List.map_congr_left
  intro r hr
  simp [hne r hr]

theorem Db.signalRowsMatching_ne_zero (db : Db) (signalId : Int)
    (h : ∃ r ∈ db.railway_signals, r.signal_id = signalId) :
    db.signalRowsMatching signalId ≠ 0 := by
  obtain ⟨r, hr, hid⟩ := h
  unfold Db.signalRowsMatching
  intro h0
  have hne : ∀ r ∈ db.railway_signals, ¬ r.signal_id = signalId := by
    simpa [List.filter_eq_nil_iff] using h0
  exact hne r hr hid

theorem Db.trainRowsMatching_ne_zero (db : Db) (trainId : Int)
    (h : ∃ r ∈ db.railway_trains, r.train_id = trainId) :
    db.trainRowsMatching trainId ≠ 0 := by
  obtain ⟨r, hr, hid⟩ := h
  unfold Db.trainRowsMatching
  intro h0
  have hne : ∀ r ∈ db.railway_trains, ¬ r.train_id = trainId := by
    simpa [List.filter_eq_nil_iff] using h0
  exact hne r hr hid

/-- When the not-found text is emitted by `updateSignalState`. -/
theorem updateSignalState_not_found_iff (signalId : Int) (state : String) (s : Sys) :
    Event.errorOccurred ("No signal found with ID " ++ toString signalId) ∈
        emittedBy (updateSignalState signalId state) s ↔
      s.m.m_isConnected = true ∧ s.db.nextOutcome = none ∧
        s.db.signalRowsMatching signalId = 0 := by
  cases hc : s.m.m_isConnected with
  | false =>
    rw [emittedBy_eq _ s [Event.errorOccurred "Cannot update signal: Database not connected"]
      (by rw [updateSignalState_not_connected _ _ _ hc]; rfl)]
    simp only [List.mem_singleton, Event.errorOccurred.injEq, Bool.false_eq_true, false_and,
      iff_false]
    intro h
    have := congrArg String.data h
    simp [String.data_append] at this
  | true =>
    cases hn : s.db.nextOutcome with
    | none =>
      by_cases h0 : s.db.signalRowsMatching signalId = 0
      · rw [emittedBy_eq _ s [Event.errorOccurred ("No signal found with ID " ++ toString signalId)]
          (by rw [updateSignalState_ok _ _ _ hc hn, if_pos h0]; rfl)]
        simp [h0]
      · rw [emittedBy_eq _ s []
          (by rw [updateSignalState_ok _ _ _ hc hn, if_neg h0]; simp)]
        simp [h0]
    | some text =>
      rw [emittedBy_eq _ s _ (by rw [updateSignalState_failed _ _ _ text hc hn])]
      simp only [List.mem_cons, Event.errorOccurred.injEq, List.mem_singleton, true_and,
        false_and, iff_false, not_or, List.not_mem_nil, or_false,
        reduceCtorEq]
      constructor
      · intro h
        have := congrArg String.data h
        simp [String.data_append] at this
      · intro h
        have := congrArg String.data h
        simp [String.data_append] at this

/-- When the not-found text is emitted by `updateTrainPosition`. -/
theorem updateTrainPosition_not_found_iff (trainId : Int) (position : String) (s : Sys) :
    Event.errorOccurred ("No train found with ID " ++ toString trainId) ∈
        emittedBy (updateTrainPosition trainId position) s ↔
      s.m.m_isConnected = true ∧ s.db.nextOutcome = none ∧
        s.db.trainRowsMatching trainId = 0 := by
  cases hc : s.m.m_isConnected with
  | false =>
    rw [emittedBy_eq _ s [Event.errorOccurred "Cannot update train: Database not connected"]
      (by rw [updateTrainPosition_not_connected _ _ _ hc]; rfl)]
    simp only [List.mem_singleton, Event.errorOccurred.injEq, Bool.false_eq_true, false_and,
      iff_false]
    intro h
    have := congrArg String.data h
    simp [String.data_append] at this
  | true =>
    cases hn : s.db.nextOutcome with
    | none =>
      by_cases h0 : s.db.trainRowsMatching trainId = 0
      · rw [emittedBy_eq _ s [Event.errorOccurred ("No train found with ID " ++ toString trainId)]
          (by rw [updateTrainPosition_ok _ _ _ hc hn, if_pos h0]; rfl)]
        simp [h0]
      · rw [emittedBy_eq _ s []
          (by rw [updateTrainPosition_ok _ _ _ hc hn, if_neg h0]; simp)]
        simp [h0]
    | some text =>
      rw [emittedBy_eq _ s _ (by rw [updateTrainPosition_failed _ _ _ text hc hn])]
      simp only [List.mem_cons, Event.errorOccurred.injEq, List.mem_singleton, true_and,
        false_and, iff_false, not_or, List.not_mem_nil, or_false,
        reduceCtorEq]
      constructor
      · intro h
        have := congrArg String.data h
        simp [String.data_append] at this
      · intro h
        have := congrArg String.data h
        simp [String.data_append] at this

/-- C5. Unknown-id write: while connected, when the update statement is executed
and its id matches no row, `updateSignalState` (`updateTrainPosition`) emits
exactly one signal, `errorOccurred` with the not-found text naming the id,
hence no change signal, and leaves the rows of both tables and the manager,
both caches included, unchanged.  That text is emitted in no other case: not
when the manager is not connected, not when the statement fails, not when a
row matched. -/
theorem update_unknown_id (s : Sys) (hc : s.m.m_isConnected = true)
    (hok : s.db.nextOutcome = none) (signalId trainId : Int) (state position : String) :
    (s.db.signalRowsMatching signalId = 0 →
        emittedBy (updateSignalState signalId state) s =
            [Event.errorOccurred ("No signal found with ID " ++ toString signalId)] ∧
          (updateSignalState signalId state s).db.railway_signals = s.db.railway_signals ∧
          (updateSignalState signalId state s).db.railway_trains = s.db.railway_trains ∧
          (updateSignalState signalId state s).m = s.m) ∧
      (s.db.trainRowsMatching trainId = 0 →
        emittedBy (updateTrainPosition trainId position) s =
            [Event.errorOccurred ("No train found with ID " ++ toString trainId)] ∧
          (updateTrainPosition trainId position s).db.railway_signals = s.db.railway_signals ∧
          (updateTrainPosition trainId position s).db.railway_trains = s.db.railway_trains ∧
          (updateTrainPosition trainId position s).m = s.m) ∧
      (∀ t : Sys,
        Event.errorOccurred ("No signal found with ID " ++ toString signalId) ∈
            emittedBy (updateSignalState signalId state) t ↔
          t.m.m_isConnected = true ∧ t.db.nextOutcome = none ∧
            t.db.signalRowsMatching signalId = 0) ∧
      (∀ t : Sys,
        Event.errorOccurred ("No train found with ID " ++ toString trainId) ∈
            emittedBy (updateTrainPosition trainId position) t ↔
          t.m.m_isConnected = true ∧ t.db.nextOutcome = none ∧
            t.db.trainRowsMatching trainId = 0) := by
  refine ⟨?_, ?_, fun t => updateSignalState_not_found_iff signalId state t,
    fun t => updateTrainPosition_not_found_iff trainId position t⟩
  · intro h0
    have e := updateSignalState_ok signalId state s hc hok
    rw [if_pos h0] at e
    refine ⟨?_, ?_, ?_, ?_⟩
    · apply emittedBy_eq; rw [e]; rfl
    · rw [e]
      exact Db.setSignalState_of_no_match (s.db.call (.updateSignal state signalId)).2
        state signalId h0
    · rw [e]; rfl
    · rw [e]; rfl
  · intro h0
    have e := updateTrainPosition_ok trainId position s hc hok
    rw [if_pos h0] at e
    refine ⟨?_, ?_, ?_, ?_⟩
    · apply emittedBy_eq; rw [e]; rfl
    · rw [e]; rfl
    · rw [e]
      exact Db.setTrainPosition_of_no_match (s.db.call (.updateTrain position trainId)).2
        position trainId h0
    · rw [e]; rfl

/-- Witness of C5: `updateSignalState(9999, "RED")` and
`updateTrainPosition(9999, "Platform A")` on the example system, which has
neither signal 9999 nor train 9999. -/
theorem update_unknown_id_witness :
    exampleSys.m.m_isConnected = true ∧ exampleSys.db.nextOutcome = none ∧
      exampleSys.db.signalRowsMatching 9999 = 0 ∧ exampleSys.db.trainRowsMatching 9999 = 0 ∧
      emittedBy (updateSignalState 9999 "RED") exampleSys =
        [Event.errorOccurred "No signal found with ID 9999"] ∧
      emittedBy (updateTrainPosition 9999 "Platform A") exampleSys =
        [Event.errorOccurred "No train found with ID 9999"] :=
  ⟨by decide, by decide, by decide, by decide,
    ((update_unknown_id exampleSys (by decide) (by decide) 9999 9999 "RED" "Platform A").1
      (by decide)).1.trans (by decide),
    ((update_unknown_id exampleSys (by decide) (by decide) 9999 9999 "RED" "Platform A").2.1
      (by decide)).1.trans (by decide)⟩

theorem updateSignalState_frame (signalId : Int) (state : String) (s : Sys) :
    (updateSignalState signalId state s).m = s.m ∧
      ∀ e ∈ emittedBy (updateSignalState signalId state) s, ∃ msg, e = Event.errorOccurred msg := by
  cases hc : s.m.m_isConnected with
  | false =>
    rw [emittedBy_eq _ s [Event.errorOccurred "Cannot update signal: Database not connected"]
      (by rw [updateSignalState_not_connected _ _ _ hc]; rfl)]
    rw [updateSignalState_not_connected _ _ _ hc]
    exact ⟨rfl, by simp⟩
  | true =>
    cases hn : s.db.nextOutcome with
    | none =>
      by_cases h0 : s.db.signalRowsMatching signalId = 0
      · rw [emittedBy_eq _ s [Event.errorOccurred ("No signal found with ID " ++ toString signalId)]
          (by rw [updateSignalState_ok _ _ _ hc hn, if_pos h0]; rfl)]
        rw [updateSignalState_ok _ _ _ hc hn, if_pos h0]
        exact ⟨rfl, by simp⟩
      · rw [emittedBy_eq _ s []
          (by rw [updateSignalState_ok _ _ _ hc hn, if_neg h0]; simp)]
        rw [updateSignalState_ok _ _ _ hc hn, if_neg h0]
        exact ⟨rfl, by simp⟩
    | some text =>
      rw [emittedBy_eq _ s _ (by rw [updateSignalState_failed _ _ _ text hc hn])]
      rw [updateSignalState_failed _ _ _ text hc hn]
      exact ⟨rfl, by simp⟩

theorem updateTrainPosition_frame (trainId : Int) (position : String) (s : Sys) :
    (updateTrainPosition trainId position s).m = s.m ∧
      ∀ e ∈ emittedBy (updateTrainPosition trainId position) s,
        ∃ msg, e = Event.errorOccurred msg := by
  cases hc : s.m.m_isConnected with
  | false =>
    rw [emittedBy_eq _ s [Event.errorOccurred "Cannot update train: Database not connected"]
      (by rw [updateTrainPosition_not_connected _ _ _ hc]; rfl)]
    rw [updateTrainPosition_not_connected _ _ _ hc]
    exact ⟨rfl, by simp⟩
  | true =>
    cases hn : s.db.nextOutcome with
    | none =>
      by_cases h0 : s.db.trainRowsMatching trainId = 0
      · rw [emittedBy_eq _ s [Event.errorOccurred ("No train found with ID " ++ toString trainId)]
          (by rw [updateTrainPosition_ok _ _ _ hc hn, if_pos h0]; rfl)]
        rw [updateTrainPosition_ok _ _ _ hc hn, if_pos h0]
        exact ⟨rfl, by simp⟩
      · rw [emittedBy_eq _ s []
          (by rw [updateTrainPosition_ok _ _ _ hc hn, if_neg h0]; simp)]
        rw [updateTrainPosition_ok _ _ _ hc hn, if_neg h0]
        exact ⟨rfl, by simp⟩
    | some text =>
      rw [emittedBy_eq _ s _ (by rw [updateTrainPosition_failed _ _ _ text hc hn])]
      rw [updateTrainPosition_failed _ _ _ text hc hn]
      exact ⟨rfl, by simp⟩

theorem Db.setSignalState_rows (db : Db) (state : String) (signalId : Int)
    (h : ∃ r ∈ db.railway_signals, r.signal_id = signalId) :
    (signalId, state) ∈ (db.setSignalState state signalId).selectSignalStates ∧
      ∀ r ∈ (db.setSignalState state signalId).selectSignalStates,
        r.1 = signalId → r.2 = state := by
  constructor
  · obtain ⟨r, hr, hid⟩ := h
    rw [Db.mem_selectSignalStates]
    refine ⟨{ r with state := state }, ?_, by simp [hid]⟩
    show _ ∈ db.railway_signals.map _
    exact List.mem_map.2 ⟨r, hr, by simp [hid]⟩
  · intro r hr hk
    rw [Db.mem_selectSignalStates] at hr
    obtain ⟨row, hrow, rfl⟩ := hr
    have hrow2 : row ∈ db.railway_signals.map
        (fun r => if r.signal_id = signalId then { r with state := state } else r) := hrow
    obtain ⟨r0, _, rfl⟩ := List.mem_map.1 hrow2
    by_cases h0 : r0.signal_id = signalId
    · simp [h0]
    · simp [h0] at hk

theorem Db.setTrainPosition_rows (db : Db) (position : String) (trainId : Int)
    (h : ∃ r ∈ db.railway_trains, r.train_id = trainId) :
    (trainId, position) ∈ (db.setTrainPosition position trainId).selectTrainPositions ∧
      ∀ r ∈ (db.setTrainPosition position trainId).selectTrainPositions,
        r.1 = trainId → r.2 = position := by
  constructor
  · obtain ⟨r, hr, hid⟩ := h
    rw [Db.mem_selectTrainPositions]
    refine ⟨{ r with current_position := position }, ?_, by simp [hid]⟩
    show _ ∈ db.railway_trains.map _
    exact List.mem_map.2 ⟨r, hr, by simp [hid]⟩
  · intro r hr hk
    rw [Db.mem_selectTrainPositions] at hr
    obtain ⟨row, hrow, rfl⟩ := hr
    have hrow2 : row ∈ db.railway_trains.map
        (fun r => if r.train_id = trainId then { r with current_position := position } else r) :=
      hrow
    obtain ⟨r0, _, rfl⟩ := List.mem_map.1 hrow2
    by_cases h0 : r0.train_id = trainId
    · simp [h0]
    · simp [h0] at hk

theorem emittedBy_pollDatabaseState (s : Sys) (hc : s.m.m_isConnected = true) :
    emittedBy pollDatabaseState s =
      (changedRows s.m.m_lastKnownSignalStates
          (s.db.fetched s.db.selectSignalStates)).map
            (fun r => Event.signalStateChanged r.1 r.2) ++
        (changedRows s.m.m_lastKnownTrainPositions
          ((s.db.call .pollSignals).2.fetched s.db.selectTrainPositions)).map
            (fun r => Event.trainPositionChanged r.1 r.2) := by
  apply emittedBy_eq
  rw [pollDatabaseState_eq s hc]
  simp only [List.append_assoc]

theorem poll_emits_signal (t : Sys) (k : Int) (v : String) (hc : t.m.m_isConnected = true)
    (hn : t.db.nextOutcome = none) (hmem : (k, v) ∈ t.db.selectSignalStates)
    (hall : ∀ r ∈ t.db.selectSignalStates, r.1 = k → r.2 = v)
    (hcache : QMap.find? t.m.m_lastKnownSignalStates k ≠ some v) :
    Event.signalStateChanged k v ∈ emittedBy pollDatabaseState t := by
  rw [emittedBy_pollDatabaseState t hc, Db.fetched_of_ok _ _ hn]
  apply List.mem_append_left
  exact List.mem_map.2 ⟨(k, v), mem_changedRows _ _ k v hmem hall hcache, rfl⟩

theorem poll_emits_train (t : Sys) (k : Int) (v : String) (hc : t.m.m_isConnected = true)
    (hn : (t.db.call .pollSignals).2.nextOutcome = none)
    (hmem : (k, v) ∈ t.db.selectTrainPositions)
    (hall : ∀ r ∈ t.db.selectTrainPositions, r.1 = k → r.2 = v)
    (hcache : QMap.find? t.m.m_lastKnownTrainPositions k ≠ some v) :
    Event.trainPositionChanged k v ∈ emittedBy pollDatabaseState t := by
  rw [emittedBy_pollDatabaseState t hc, Db.fetched_of_ok _ _ hn]
  apply List.mem_append_right
  exact List.mem_map.2 ⟨(k, v), mem_changedRows _ _ k v hmem hall hcache, rfl⟩

/-! ## The connection part of the state -/

theorem loadCurrentState_conn (s : Sys) : (loadCurrentState s).conn = s.conn := by
  unfold loadCurrentState
  split
  · rfl
  · cases h1 : s.db.nextOutcome <;> cases h2 : (s.db.call Stmt.loadSignals).2.nextOutcome <;>
      simp only [exec_eq, h1, h2, loadSignalRows_eq, loadTrainRows_eq, Sys.conn, Db.call_opened]

theorem seedSignals_conn (s : Sys) : (seedSignals s).conn = s.conn := by
  unfold seedSignals
  cases h1 : s.db.nextOutcome with
  | some e => simp only [exec_eq, h1, Sys.conn, Db.call_opened]
  | none =>
    simp only [exec_eq, h1]
    split
    · cases h2 : (s.db.call Stmt.countSignals).2.nextOutcome <;>
        simp only [h2, Sys.conn, Db.call_opened, Db.insertTestSignals]
    · simp only [Sys.conn, Db.call_opened]

theorem seedTrains_conn (s : Sys) : (seedTrains s).conn = s.conn := by
  unfold seedTrains
  cases h1 : s.db.nextOutcome with
  | some e => simp only [exec_eq, h1, Sys.conn, Db.call_opened]
  | none =>
    simp only [exec_eq, h1]
    split
    · cases h2 : (s.db.call Stmt.countTrains).2.nextOutcome <;>
        simp only [h2, Sys.conn, Db.call_opened, Db.insertTestTrains]
    · simp only [Sys.conn, Db.call_opened]

theorem setupDatabase_conn (s : Sys) : (setupDatabase s).conn = s.conn := by
  unfold setupDatabase
  cases h1 : s.db.nextOutcome with
  | some e => simp only [exec_eq, h1, Sys.conn, Db.call_opened, logDatabaseError, emit]
  | none =>
    cases h2 : (s.db.call Stmt.createSignalsTable).2.nextOutcome with
    | some e => simp only [exec_eq, h1, h2, Sys.conn, Db.call_opened, logDatabaseError, emit]
    | none =>
      simp only [exec_eq, h1, h2]
      rw [loadCurrentState_conn, seedTrains_conn, seedSignals_conn]
      simp only [Sys.conn, Db.call_opened]

theorem pollDatabaseState_conn (s : Sys) : (pollDatabaseState s).conn = s.conn := by
  cases hc : s.m.m_isConnected with
  | false => rw [pollDatabaseState_not_connected s hc]
  | true =>
    rw [pollDatabaseState_eq s hc]
    simp only [Sys.conn, Db.call_opened]

theorem connectToDatabase_failed (s : Sys) (text : String)
    (hn : s.db.nextOutcome = some text) :
    connectToDatabase s =
      (false,
        { m := { s.m with
            m_databaseOpen := false,
            m_isConnected := false,
            m_connectionStatus := "Connection Failed: " ++ text },
          db := (s.db.call .openConnection).2,
          out := s.out ++
            [.errorOccurred ("❌ Database " ++ "Connection" ++ " Error: " ++ text),
             .connectionChanged,
             .errorOccurred ("Connection Failed: " ++ text)],
          propertyReads := s.propertyReads ++ [(false, "Connection Failed: " ++ text)] }) := by
  unfold connectToDatabase
  simp only [exec_eq, hn, logDatabaseError, emitConnectionChanged, isConnected,
    connectionStatus, emit, List.append_assoc, List.singleton_append]
  rfl

theorem conn_after_start (t : Sys) :
    (emitConnectionChanged
      { t with m := { t.m with
        m_connectionTimer := { t.m.m_connectionTimer with active := true },
        m_statePollingTimer := { t.m.m_statePollingTimer with active := true } } }).conn =
      (t.conn.1, t.conn.2.1, t.conn.2.2.1,
        { t.conn.2.2.2.1 with active := true },
        { t.conn.2.2.2.2.1 with active := true }, t.conn.2.2.2.2.2) := rfl

theorem connectToDatabase_opened (s : Sys) (hn : s.db.nextOutcome = none) :
    (connectToDatabase s).1 = true ∧
      (connectToDatabase s).2.conn =
        (true, true, "Connected to PostgreSQL",
          { s.m.m_connectionTimer with active := true },
          { s.m.m_statePollingTimer with active := true }, s.db.opened + 1) := by
  unfold connectToDatabase
  simp only [exec_eq, hn, true_and]
  rw [conn_after_start, setupDatabase_conn]
  rfl

/-- C7 (as amended). Called with the database handle open, `disconnectFromDatabase`
stops both timers, closes the handle, sets `m_isConnected` to false and the
status to "Disconnected", and emits `connectionChanged` once.  In every state
it is idempotent: a second call changes nothing and emits nothing. -/
theorem disconnectFromDatabase_spec (s : Sys) :
    (s.m.m_databaseOpen = true →
        (disconnectFromDatabase s).m.m_connectionTimer.active = false ∧
          (disconnectFromDatabase s).m.m_statePollingTimer.active = false ∧
          (disconnectFromDatabase s).m.m_databaseOpen = false ∧
          (disconnectFromDatabase s).m.m_isConnected = false ∧
          (disconnectFromDatabase s).m.m_connectionStatus = "Disconnected" ∧
          emittedBy disconnectFromDatabase s = [Event.connectionChanged]) ∧
      disconnectFromDatabase (disconnectFromDatabase s) = disconnectFromDatabase s ∧
      emittedBy disconnectFromDatabase (disconnectFromDatabase s) = [] := by
  have hclosed : ∀ t : Sys, t.m.m_databaseOpen = false → disconnectFromDatabase t = t := by
    intro t ht
    unfold disconnectFromDatabase
    simp [ht]
  have hafter : (disconnectFromDatabase s).m.m_databaseOpen = false := by
    cases ho : s.m.m_databaseOpen with
    | false => rw [hclosed s ho]; exact ho
    | true => unfold disconnectFromDatabase; simp [ho, emit, emitConnectionChanged]
  refine ⟨?_, hclosed _ hafter, ?_⟩
  · intro ho
    refine ⟨?_, ?_, ?_, ?_, ?_, ?_⟩
    · unfold disconnectFromDatabase; simp [ho, emit, emitConnectionChanged]
    · unfold disconnectFromDatabase; simp [ho, emit, emitConnectionChanged]
    · unfold disconnectFromDatabase; simp [ho, emit, emitConnectionChanged]
    · unfold disconnectFromDatabase; simp [ho, emit, emitConnectionChanged]
    · unfold disconnectFromDatabase; simp [ho, emit, emitConnectionChanged]
    · apply emittedBy_eq
      unfold disconnectFromDatabase; simp [ho, emit, emitConnectionChanged]
  · apply emittedBy_eq
    rw [hclosed _ hafter]
    simp

/-- Witness of C7 (as amended) on the open handle of `exampleSys`. -/
theorem disconnectFromDatabase_spec_witness :
    exampleSys.m.m_databaseOpen = true ∧
      (disconnectFromDatabase exampleSys).m.m_connectionStatus = "Disconnected" ∧
      (disconnectFromDatabase exampleSys).m.m_statePollingTimer.active = false ∧
      disconnectFromDatabase (disconnectFromDatabase exampleSys) =
        disconnectFromDatabase exampleSys :=
  ⟨by decide,
    ((disconnectFromDatabase_spec exampleSys).1 (by decide)).2.2.2.2.1,
    ((disconnectFromDatabase_spec exampleSys).1 (by decide)).2.1,
    (disconnectFromDatabase_spec exampleSys).2.1⟩

/-- C7, counterexample to the claim as stated.  The state `exampleLost` is
reachable: the constructor connects, the server goes away, the health check
fires, its test query fails and the reconnect fails.  There the handle is not
open, so `disconnectFromDatabase` does nothing: both timers keep running and
the status is not "Disconnected". -/
theorem disconnectFromDatabase_leaves_timers_running :
    Reachable exampleLost ∧
      (disconnectFromDatabase exampleLost).m.m_connectionTimer.active = true ∧
      (disconnectFromDatabase exampleLost).m.m_statePollingTimer.active = true ∧
      (disconnectFromDatabase exampleLost).m.m_connectionStatus =
        "Connection Failed: could not connect to server" :=
  ⟨Reachable.next _ _ (Reachable.next _ _ (Reachable.start exampleStore) (by decide))
      (by decide),
    by decide, by decide, by decide⟩

/-! ## No connection without a successful `open()` -/

theorem connectToDatabase_opened_le (s : Sys) :
    s.db.opened ≤ (connectToDatabase s).2.db.opened ∧
      ((connectToDatabase s).2.db.opened = s.db.opened →
        (connectToDatabase s).1 = false ∧ (connectToDatabase s).2.m.m_isConnected = false) := by
  cases hn : s.db.nextOutcome with
  | none =>
    have h := (connectToDatabase_opened s hn).2
    have ho : (connectToDatabase s).2.db.opened = s.db.opened + 1 :=
      congrArg (fun c => c.2.2.2.2.2) h
    rw [ho]
    exact ⟨Nat.le_succ _, fun h => absurd h (Nat.succ_ne_self _)⟩
  | some text =>
    rw [connectToDatabase_failed s text hn]
    exact ⟨Nat.le_refl _, fun _ => ⟨rfl, rfl⟩⟩

theorem testConnection_opened_le (s : Sys) :
    s.db.opened ≤ (testConnection s).2.db.opened ∧
      ((testConnection s).1 = false → (testConnection s).2.db.opened = s.db.opened) ∧
      (s.m.m_isConnected = false → (testConnection s).2.db.opened = s.db.opened →
        (testConnection s).2.m.m_isConnected = false) := by
  unfold testConnection
  cases ho : s.m.m_databaseOpen with
  | false =>
    simp only [Bool.not_false, if_true]
    have h := connectToDatabase_opened_le s
    refine ⟨h.1, ?_, fun _ he => (h.2 he).2⟩
    intro hf
    cases hn : s.db.nextOutcome with
    | none => rw [(connectToDatabase_opened s hn).1] at hf; cases hf
    | some text => rw [connectToDatabase_failed s text hn]; rfl
  | true =>
    cases hn : s.db.nextOutcome with
    | none =>
      simp only [exec_eq, hn, Bool.not_true, Bool.false_eq_true, if_false]
      exact ⟨Nat.le_refl _, fun _ => rfl, fun hc _ => hc⟩
    | some text =>
      simp only [exec_eq, hn, Bool.not_true, Bool.false_eq_true, if_false]
      exact ⟨Nat.le_refl _, fun _ => rfl, fun hc _ => hc⟩

/-- A failed health test is followed by a reconnect attempt that starts from a
state in which `m_isConnected` is already false. -/
theorem checkConnection_of_failed_test (s : Sys) (hf : (testConnection s).1 = false) :
    ∃ t : Sys, t.m.m_isConnected = false ∧ t.m.m_connectionStatus = "Connection Lost" ∧
      t.m.m_lastKnownSignalStates = (testConnection s).2.m.m_lastKnownSignalStates ∧
      t.m.m_lastKnownTrainPositions = (testConnection s).2.m.m_lastKnownTrainPositions ∧
      t.db = (testConnection s).2.db ∧
      t.out = (testConnection s).2.out ++ [Event.connectionChanged] ∧
      t.propertyReads = (testConnection s).2.propertyReads ++ [(false, "Connection Lost")] ∧
      checkConnection s = (connectToDatabase t).2 := by
  unfold checkConnection
  cases h : testConnection s with
  | mk b s1 =>
    rw [h] at hf
    have hb : b = false := hf
    subst hb
    exact ⟨emitConnectionChanged
      { s1 with m := { s1.m with m_isConnected := false, m_connectionStatus := "Connection Lost" } },
      rfl, rfl, rfl, rfl, rfl, rfl, rfl, rfl⟩

theorem checkConnection_opened_le (s : Sys) :
    s.db.opened ≤ (checkConnection s).db.opened ∧
      ((testConnection s).1 = false → (checkConnection s).db.opened = s.db.opened →
        (checkConnection s).m.m_isConnected = false) ∧
      (s.m.m_isConnected = false → (checkConnection s).db.opened = s.db.opened →
        (checkConnection s).m.m_isConnected = false) := by
  have ht := testConnection_opened_le s
  have hfalse : (testConnection s).1 = false →
      s.db.opened ≤ (checkConnection s).db.opened ∧
        ((checkConnection s).db.opened = s.db.opened →
          (checkConnection s).m.m_isConnected = false) := by
    intro hf
    obtain ⟨t, _, _, _, _, hdb, _, _, he⟩ := checkConnection_of_failed_test s hf
    have hc := connectToDatabase_opened_le t
    have hto : t.db.opened = s.db.opened := by rw [hdb]; exact ht.2.1 hf
    rw [he]
    rw [hto] at hc
    exact ⟨hc.1, fun h => (hc.2 h).2⟩
  cases hb : (testConnection s).1 with
  | false =>
    have h := hfalse hb
    exact ⟨h.1, fun _ => h.2, fun _ => h.2⟩
  | true =>
    have he : checkConnection s = (testConnection s).2 := by
      unfold checkConnection
      cases h : testConnection s with
      | mk b s1 =>
        rw [h] at hb
        have hb2 : b = true := hb
        subst hb2
        rfl
    rw [he]
    exact ⟨ht.1, fun h => Bool.noConfusion h, ht.2.2⟩

theorem loadCurrentState_opened (s : Sys) :
    (loadCurrentState s).db.opened = s.db.opened ∧
      (loadCurrentState s).m.m_isConnected = s.m.m_isConnected := by
  have h := loadCurrentState_conn s
  exact ⟨congrArg (fun c => c.2.2.2.2.2) h, congrArg (fun c => c.2.1) h⟩

theorem pollDatabaseState_opened (s : Sys) :
    (pollDatabaseState s).db.opened = s.db.opened ∧
      (pollDatabaseState s).m.m_isConnected = s.m.m_isConnected := by
  have h := pollDatabaseState_conn s
  exact ⟨congrArg (fun c => c.2.2.2.2.2) h, congrArg (fun c => c.2.1) h⟩

theorem updateSignalState_opened (signalId : Int) (state : String) (s : Sys) :
    (updateSignalState signalId state s).db.opened = s.db.opened := by
  cases hc : s.m.m_isConnected with
  | false => rw [updateSignalState_not_connected _ _ _ hc]; rfl
  | true =>
    cases hn : s.db.nextOutcome with
    | none => rw [updateSignalState_ok _ _ _ hc hn]; split <;> rfl
    | some text => rw [updateSignalState_failed _ _ _ text hc hn]; rfl

theorem updateTrainPosition_opened (trainId : Int) (position : String) (s : Sys) :
    (updateTrainPosition trainId position s).db.opened = s.db.opened := by
  cases hc : s.m.m_isConnected with
  | false => rw [updateTrainPosition_not_connected _ _ _ hc]; rfl
  | true =>
    cases hn : s.db.nextOutcome with
    | none => rw [updateTrainPosition_ok _ _ _ hc hn]; split <;> rfl
    | some text => rw [updateTrainPosition_failed _ _ _ text hc hn]; rfl

theorem disconnectFromDatabase_opened (s : Sys) :
    (disconnectFromDatabase s).db.opened = s.db.opened ∧
      (s.m.m_isConnected = false → (disconnectFromDatabase s).m.m_isConnected = false) := by
  unfold disconnectFromDatabase
  split
  · exact ⟨rfl, fun _ => rfl⟩
  · exact ⟨rfl, fun h => h⟩

theorem step_opened_le (s : Sys) (op : Op) :
    s.db.opened ≤ (step s op).db.opened ∧
      (s.m.m_isConnected = false → (step s op).db.opened = s.db.opened →
        (step s op).m.m_isConnected = false) := by
  cases op with
  | connectToDatabase =>
    exact ⟨(connectToDatabase_opened_le s).1, fun _ h => ((connectToDatabase_opened_le s).2 h).2⟩
  | disconnectFromDatabase =>
    exact ⟨Nat.le_of_eq (disconnectFromDatabase_opened s).1.symm,
      fun h _ => (disconnectFromDatabase_opened s).2 h⟩
  | testConnection =>
    exact ⟨(testConnection_opened_le s).1, (testConnection_opened_le s).2.2⟩
  | loadCurrentState =>
    exact ⟨Nat.le_of_eq (loadCurrentState_opened s).1.symm,
      fun h _ => (loadCurrentState_opened s).2.trans h⟩
  | enterTeleportationMode => exact ⟨Nat.le_refl _, fun h _ => h⟩
  | enterRocketMode => exact ⟨Nat.le_refl _, fun h _ => h⟩
  | enterSupercarMode => exact ⟨Nat.le_refl _, fun h _ => h⟩
  | enterNormalMode => exact ⟨Nat.le_refl _, fun h _ => h⟩
  | updateSignalState signalId state =>
    exact ⟨Nat.le_of_eq (updateSignalState_opened signalId state s).symm,
      fun h _ => (congrArg DatabaseManager.m_isConnected
        (updateSignalState_frame signalId state s).1).trans h⟩
  | updateTrainPosition trainId position =>
    exact ⟨Nat.le_of_eq (updateTrainPosition_opened trainId position s).symm,
      fun h _ => (congrArg DatabaseManager.m_isConnected
        (updateTrainPosition_frame trainId position s).1).trans h⟩
  | checkConnection =>
    exact ⟨(checkConnection_opened_le s).1, (checkConnection_opened_le s).2.2⟩
  | pollDatabaseState =>
    exact ⟨Nat.le_of_eq (pollDatabaseState_opened s).1.symm,
      fun h _ => (pollDatabaseState_opened s).2.trans h⟩
  | outside signals trains signalSeq trainSeq faults =>
    exact ⟨Nat.le_refl _, fun h _ => h⟩

theorem run_opened_le (ops : List Op) : ∀ s : Sys, s.db.opened ≤ (run s ops).db.opened := by
  induction ops with
  | nil => intro s; exact Nat.le_refl _
  | cons op rest ih =>
    intro s
    exact Nat.le_trans (step_opened_le s op).1 (ih (step s op))

theorem run_stays_down (ops : List Op) :
    ∀ s : Sys, s.m.m_isConnected = false → (run s ops).db.opened = s.db.opened →
      (run s ops).m.m_isConnected = false := by
  induction ops with
  | nil => intro s h _; exact h
  | cons op rest ih =>
    intro s h he
    have h1 := step_opened_le s op
    have h2 : (step s op).db.opened ≤ (run s (op :: rest)).db.opened :=
      run_opened_le rest (step s op)
    have h3 : (step s op).db.opened = s.db.opened :=
      Nat.le_antisymm (he ▸ h2) h1.1
    exact ih (step s op) (h1.2 h h3) (he.trans h3.symm)

theorem run_prefix_stays_down (s : Sys) (pre post : List Op) (h : s.m.m_isConnected = false)
    (he : (run s (pre ++ post)).db.opened = s.db.opened) :
    (run s pre).m.m_isConnected = false := by
  have hsplit : run s (pre ++ post) = run (run s pre) post := by
    unfold run; rw [List.foldl_append]
  have h1 := run_opened_le pre s
  have h2 := run_opened_le post (run s pre)
  rw [← hsplit, he] at h2
  exact run_stays_down pre s h (Nat.le_antisymm h2 h1)

/-! ## The reconnect: `setupDatabase` and `loadCurrentState` -/

theorem Db.nextOk_mono (db : Db) (m n : Nat) (hmn : m ≤ n) (h : db.NextOk n) : db.NextOk m :=
  fun f hf => h f (List.take_subset_take_left db.faults hmn hf)

theorem Db.insertTestSignals_primaryKeys (db : Db) (h0 : db.railway_signals.length = 0)
    (h : db.PrimaryKeys) : db.insertTestSignals.PrimaryKeys := by
  have hnil : db.railway_signals = [] := List.length_eq_zero.1 h0
  refine ⟨?_, h.2⟩
  simp only [Db.insertTestSignals, hnil, List.nil_append, List.map_cons, List.map_nil,
    List.nodup_cons, List.mem_cons, List.mem_singleton, List.not_mem_nil, not_false_eq_true,
    List.nodup_nil, and_true, not_or]
  omega

theorem Db.insertTestTrains_primaryKeys (db : Db) (h0 : db.railway_trains.length = 0)
    (h : db.PrimaryKeys) : db.insertTestTrains.PrimaryKeys := by
  have hnil : db.railway_trains = [] := List.length_eq_zero.1 h0
  refine ⟨h.1, ?_⟩
  simp only [Db.insertTestTrains, hnil, List.nil_append, List.map_cons, List.map_nil,
    List.nodup_cons, List.mem_cons, List.mem_singleton, List.not_mem_nil, not_false_eq_true,
    List.nodup_nil, and_true, not_or]
  omega

theorem seedSignals_ok (s : Sys) (n : Nat) (hok : s.db.NextOk (n + 2)) :
    (seedSignals s).m = s.m ∧ (seedSignals s).out = s.out ∧
      (seedSignals s).db.NextOk n ∧
      (s.db.PrimaryKeys → (seedSignals s).db.PrimaryKeys) := by
  have h1 := s.db.nextOk_succ .countSignals (n + 1) hok
  have h2 := (s.db.call .countSignals).2.nextOk_succ .insertTestSignals n h1.2
  unfold seedSignals
  simp only [exec_eq, h1.1]
  split
  · rename_i h0
    simp only [h2.1]
    exact ⟨trivial, trivial, h2.2, fun hpk => Db.insertTestSignals_primaryKeys _ h0 hpk⟩
  · exact ⟨rfl, rfl, Db.nextOk_mono _ n (n + 1) (Nat.le_succ n) h1.2, fun hpk => hpk⟩

theorem seedTrains_ok (s : Sys) (n : Nat) (hok : s.db.NextOk (n + 2)) :
    (seedTrains s).m = s.m ∧ (seedTrains s).out = s.out ∧
      (seedTrains s).db.NextOk n ∧
      (s.db.PrimaryKeys → (seedTrains s).db.PrimaryKeys) := by
  have h1 := s.db.nextOk_succ .countTrains (n + 1) hok
  have h2 := (s.db.call .countTrains).2.nextOk_succ .insertTestTrains n h1.2
  unfold seedTrains
  simp only [exec_eq, h1.1]
  split
  · rename_i h0
    simp only [h2.1]
    exact ⟨trivial, trivial, h2.2, fun hpk => Db.insertTestTrains_primaryKeys _ h0 hpk⟩
  · exact ⟨rfl, rfl, Db.nextOk_mono _ n (n + 1) (Nat.le_succ n) h1.2, fun hpk => hpk⟩

/-- What a successful `loadCurrentState` does, in terms of the state it returns. -/
theorem loadCurrentState_ok (s : Sys) (hc : s.m.m_isConnected = true) (hok : s.db.NextOk 2) :
    (loadCurrentState s).m.m_lastKnownSignalStates =
        cacheLoaded s.m.m_lastKnownSignalStates (loadCurrentState s).db.selectSignalStatesNames ∧
      (loadCurrentState s).m.m_lastKnownTrainPositions =
        cacheLoaded s.m.m_lastKnownTrainPositions
          (loadCurrentState s).db.selectTrainPositionsNames ∧
      (loadCurrentState s).out = s.out ++
        (loadCurrentState s).db.selectSignalStatesNames.map
          (fun r => Event.signalStateChanged r.1 r.2.1) ++
        (loadCurrentState s).db.selectTrainPositionsNames.map
          (fun r => Event.trainPositionChanged r.1 r.2.1) ∧
      (s.db.PrimaryKeys → (loadCurrentState s).db.PrimaryKeys) := by
  have h1 := s.db.nextOk_succ .loadSignals 1 hok
  have h2 := (s.db.call .loadSignals).2.nextOk_succ .loadTrains 0 h1.2
  have hn : ¬ ((!s.m.m_isConnected) = true) := by simp [hc]
  unfold loadCurrentState
  rw [if_neg hn]
  simp only [exec_eq, h1.1, h2.1, loadSignalRows_eq, loadTrainRows_eq,
    Db.call_selectSignalStatesNames, Db.call_selectTrainPositionsNames, List.append_assoc]
  exact ⟨trivial, trivial, trivial, fun hpk => hpk⟩

/-- What a successful `setupDatabase` does, in terms of the state it returns. -/
theorem setupDatabase_ok (s : Sys) (hc : s.m.m_isConnected = true) (hok : s.db.NextOk 8) :
    (setupDatabase s).m.m_lastKnownSignalStates =
        cacheLoaded s.m.m_lastKnownSignalStates (setupDatabase s).db.selectSignalStatesNames ∧
      (setupDatabase s).m.m_lastKnownTrainPositions =
        cacheLoaded s.m.m_lastKnownTrainPositions
          (setupDatabase s).db.selectTrainPositionsNames ∧
      (setupDatabase s).out = s.out ++
        (setupDatabase s).db.selectSignalStatesNames.map
          (fun r => Event.signalStateChanged r.1 r.2.1) ++
        (setupDatabase s).db.selectTrainPositionsNames.map
          (fun r => Event.trainPositionChanged r.1 r.2.1) ∧
      (s.db.PrimaryKeys → (setupDatabase s).db.PrimaryKeys) := by
  have h1 := s.db.nextOk_succ .createSignalsTable 7 hok
  have h2 := (s.db.call .createSignalsTable).2.nextOk_succ .createTrainsTable 6 h1.2
  unfold setupDatabase
  simp only [exec_eq, h1.1, h2.1]
  have a := seedSignals_ok
    { s with db := ((s.db.call .createSignalsTable).2.call .createTrainsTable).2 } 4 h2.2
  have b := seedTrains_ok _ 2 a.2.2.1
  have hc2 : (seedTrains (seedSignals
      { s with db := ((s.db.call .createSignalsTable).2.call .createTrainsTable).2 })).m.m_isConnected
        = true := by
    rw [b.1, a.1]; exact hc
  have c := loadCurrentState_ok _ hc2 b.2.2.1
  rw [b.1, a.1, b.2.1, a.2.1] at c
  exact ⟨c.1, c.2.1, c.2.2.1, fun hpk => c.2.2.2 (b.2.2.2 (a.2.2.2 hpk))⟩

theorem connectToDatabase_eq_ok (s : Sys) (hn : s.db.nextOutcome = none) :
    connectToDatabase s =
      (true, emitConnectionChanged (startTimers (setupDatabase (afterOpen s)))) := by
  unfold connectToDatabase
  simp only [exec_eq, hn]
  rfl

/-- What a successful `connectToDatabase` does, in terms of the state it returns. -/
theorem connectToDatabase_ok (s : Sys) (hn : s.db.nextOutcome = none)
    (hok : (s.db.call .openConnection).2.NextOk 8) :
    (connectToDatabase s).2.m.m_lastKnownSignalStates =
        cacheLoaded s.m.m_lastKnownSignalStates
          (connectToDatabase s).2.db.selectSignalStatesNames ∧
      (connectToDatabase s).2.m.m_lastKnownTrainPositions =
        cacheLoaded s.m.m_lastKnownTrainPositions
          (connectToDatabase s).2.db.selectTrainPositionsNames ∧
      (connectToDatabase s).2.out = s.out ++
        (connectToDatabase s).2.db.selectSignalStatesNames.map
          (fun r => Event.signalStateChanged r.1 r.2.1) ++
        (connectToDatabase s).2.db.selectTrainPositionsNames.map
          (fun r => Event.trainPositionChanged r.1 r.2.1) ++
        [Event.connectionChanged] ∧
      (s.db.PrimaryKeys → (connectToDatabase s).2.db.PrimaryKeys) := by
  have c := setupDatabase_ok (afterOpen s) rfl hok
  rw [connectToDatabase_eq_ok s hn]
  refine ⟨c.1, c.2.1, ?_, c.2.2.2⟩
  show (setupDatabase (afterOpen s)).out ++ [Event.connectionChanged] = _
  rw [c.2.2.1]
  rfl

theorem testConnection_failed (s : Sys) (text : String) (ho : s.m.m_databaseOpen = true)
    (hn : s.db.nextOutcome = some text) :
    testConnection s =
      (false,
        { s with
          db := (s.db.call .select1).2,
          out := s.out ++ [.errorOccurred ("❌ Database " ++ "Test Query" ++ " Error: " ++ text)] }) := by
  unfold testConnection
  simp only [ho, exec_eq, hn, Bool.not_true, Bool.false_eq_true, if_false, logDatabaseError, emit]

theorem Db.names_of_state (db : Db) (r : Int × String) (h : r ∈ db.selectSignalStates) :
    ∃ n, (r.1, r.2, n) ∈ db.selectSignalStatesNames := by
  unfold Db.selectSignalStates at h
  obtain ⟨row, hrow, rfl⟩ := List.mem_map.1 h
  exact ⟨row.name, List.mem_map.2 ⟨row, hrow, rfl⟩⟩

theorem Db.names_of_position (db : Db) (r : Int × String) (h : r ∈ db.selectTrainPositions) :
    ∃ n, (r.1, r.2, n) ∈ db.selectTrainPositionsNames := by
  unfold Db.selectTrainPositions at h
  obtain ⟨row, hrow, rfl⟩ := List.mem_map.1 h
  exact ⟨row.name, List.mem_map.2 ⟨row, hrow, rfl⟩⟩

/-- A poll on caches that hold every stored row emits nothing. -/
theorem poll_silent_of_up_to_date (t : Sys) (hc : t.m.m_isConnected = true)
    (hS : ∀ r ∈ t.db.selectSignalStates, QMap.find? t.m.m_lastKnownSignalStates r.1 = some r.2)
    (hT : ∀ r ∈ t.db.selectTrainPositions,
      QMap.find? t.m.m_lastKnownTrainPositions r.1 = some r.2) :
    emittedBy pollDatabaseState t = [] := by
  rw [emittedBy_pollDatabaseState t hc]
  have dS := diff_of_up_to_date (t.db.fetched t.db.selectSignalStates)
    t.m.m_lastKnownSignalStates (fun r hr => hS r ((Db.fetched_sublist _ _).subset hr))
  have dT := diff_of_up_to_date ((t.db.call .pollSignals).2.fetched t.db.selectTrainPositions)
    t.m.m_lastKnownTrainPositions (fun r hr => hT r ((Db.fetched_sublist _ _).subset hr))
  rw [dS.2, dT.2]
  rfl

theorem pollDatabaseState_no_error (s : Sys) (msg : String) :
    Event.errorOccurred msg ∉ emittedBy pollDatabaseState s := by
  cases hc : s.m.m_isConnected with
  | false =>
    rw [emittedBy_eq _ s [] (by rw [pollDatabaseState_not_connected s hc]; simp)]
    exact List.not_mem_nil _
  | true =>
    rw [emittedBy_pollDatabaseState s hc]
    intro h
    rcases List.mem_append.1 h with h | h
    · obtain ⟨r, _, hr⟩ := List.mem_map.1 h
      exact Event.noConfusion hr
    · obtain ⟨r, _, hr⟩ := List.mem_map.1 h
      exact Event.noConfusion hr

/-! ## One poll cycle, collection by collection -/

theorem Db.fetched_eq {α : Type} (db : Db) (rows : List α) :
    db.fetched rows = if db.nextOutcome = none then rows else [] := by
  unfold Db.fetched
  cases db.nextOutcome <;> simp

theorem changedRows_fetched (db : Db) (c : QMap) (rows : List (Int × String))
    (f : Int × String → Event) (hnd : (rows.map Prod.fst).Nodup) :
    (changedRows c (db.fetched rows)).map f =
      if db.nextOutcome = none then
        (rows.filter (fun r => decide (QMap.find? c r.1 ≠ some r.2))).map f
      else [] := by
  rw [Db.fetched_eq]
  split
  · rw [changedRows_eq_filter rows c c (fun _ _ => rfl) hnd]
  · rfl

theorem pollDatabaseState_signalCache (s : Sys) (hc : s.m.m_isConnected = true) :
    (pollDatabaseState s).m.m_lastKnownSignalStates =
      cacheAfter s.m.m_lastKnownSignalStates (s.db.fetched s.db.selectSignalStates) := by
  rw [pollDatabaseState_eq s hc]

theorem pollDatabaseState_trainCache (s : Sys) (hc : s.m.m_isConnected = true) :
    (pollDatabaseState s).m.m_lastKnownTrainPositions =
      cacheAfter s.m.m_lastKnownTrainPositions
        ((s.db.call .pollSignals).2.fetched s.db.selectTrainPositions) := by
  rw [pollDatabaseState_eq s hc]

theorem pollDatabaseState_tables (s : Sys) :
    (pollDatabaseState s).db.selectSignalStates = s.db.selectSignalStates ∧
      (pollDatabaseState s).db.selectTrainPositions = s.db.selectTrainPositions := by
  cases hc : s.m.m_isConnected with
  | false => rw [pollDatabaseState_not_connected s hc]; exact ⟨rfl, rfl⟩
  | true => rw [pollDatabaseState_eq s hc]; exact ⟨rfl, rfl⟩

/-- The signals of a poll cycle on tables that respect their primary keys. -/
theorem emittedBy_poll_of_keys (s : Sys) (hc : s.m.m_isConnected = true)
    (hpk : s.db.PrimaryKeys) :
    emittedBy pollDatabaseState s =
      (if s.signalFetchOk then
        (s.db.selectSignalStates.filter
            (fun r => decide (QMap.find? s.m.m_lastKnownSignalStates r.1 ≠ some r.2))).map
          (fun r => Event.signalStateChanged r.1 r.2)
      else []) ++
      (if s.trainFetchOk then
        (s.db.selectTrainPositions.filter
            (fun r => decide (QMap.find? s.m.m_lastKnownTrainPositions r.1 ≠ some r.2))).map
          (fun r => Event.trainPositionChanged r.1 r.2)
      else []) := by
  rw [emittedBy_pollDatabaseState s hc,
    changedRows_fetched _ _ _ _ (s.db.selectSignalStates_nodup hpk),
    changedRows_fetched _ _ _ _ (s.db.selectTrainPositions_nodup hpk)]
  rfl

/-- C1. While connected, on tables that respect their primary keys, for each
collection whose fetch succeeds in the cycle (whatever happens to the fetch of
the other collection) `pollDatabaseState` emits a change signal for exactly
the fetched rows whose id is absent from the cache or cached with another
value, in fetch order, and for no other row; afterwards the cache of that
collection maps every fetched id to its fetched value and every other id to
what it held before.  The signals of the cycle are those of the signals
collection followed by those of the trains collection. -/
theorem pollDatabaseState_diff (s : Sys) (hc : s.m.m_isConnected = true)
    (hpk : s.db.PrimaryKeys) :
    emittedBy pollDatabaseState s =
        (if s.signalFetchOk then
          (s.db.selectSignalStates.filter
              (fun r => decide (QMap.find? s.m.m_lastKnownSignalStates r.1 ≠ some r.2))).map
            (fun r => Event.signalStateChanged r.1 r.2)
        else []) ++
        (if s.trainFetchOk then
          (s.db.selectTrainPositions.filter
              (fun r => decide (QMap.find? s.m.m_lastKnownTrainPositions r.1 ≠ some r.2))).map
            (fun r => Event.trainPositionChanged r.1 r.2)
        else []) ∧
      (s.signalFetchOk →
        (∀ r ∈ s.db.selectSignalStates,
          QMap.find? (pollDatabaseState s).m.m_lastKnownSignalStates r.1 = some r.2) ∧
        (∀ k, k ∉ s.db.selectSignalStates.map Prod.fst →
          QMap.find? (pollDatabaseState s).m.m_lastKnownSignalStates k =
            QMap.find? s.m.m_lastKnownSignalStates k)) ∧
      (s.trainFetchOk →
        (∀ r ∈ s.db.selectTrainPositions,
          QMap.find? (pollDatabaseState s).m.m_lastKnownTrainPositions r.1 = some r.2) ∧
        (∀ k, k ∉ s.db.selectTrainPositions.map Prod.fst →
          QMap.find? (pollDatabaseState s).m.m_lastKnownTrainPositions k =
            QMap.find? s.m.m_lastKnownTrainPositions k)) := by
  refine ⟨emittedBy_poll_of_keys s hc hpk, ?_, ?_⟩
  · intro hs
    rw [pollDatabaseState_signalCache s hc, Db.fetched_of_ok _ _ hs]
    exact ⟨find?_cacheAfter_of_mem _ _ (s.db.selectSignalStates_nodup hpk),
      find?_cacheAfter_of_not_mem _ _⟩
  · intro ht
    rw [pollDatabaseState_trainCache s hc, Db.fetched_of_ok _ _ ht]
    exact ⟨find?_cacheAfter_of_mem _ _ (s.db.selectTrainPositions_nodup hpk),
      find?_cacheAfter_of_not_mem _ _⟩

/-- Witness of C1.  The scenario of the specification: with signal 1 RED in the
store and an empty cache the poll emits `signalStateChanged(1, RED)`; after
another client has set it to GREEN the next poll emits
`signalStateChanged(1, GREEN)`; a further poll emits nothing.  And a cycle in
which the fetch of the signals fails while that of the trains succeeds: the
change of train 3 is emitted and cached. -/
theorem pollDatabaseState_diff_witness :
    exampleSys.m.m_isConnected = true ∧ exampleSys.db.PrimaryKeys ∧
      exampleSys.signalFetchOk ∧ exampleSys.trainFetchOk ∧
      emittedBy pollDatabaseState exampleSys = [Event.signalStateChanged 1 "RED"] ∧
      QMap.find? (pollDatabaseState exampleSys).m.m_lastKnownSignalStates 1 = some "RED" ∧
      emittedBy pollDatabaseState (step (pollDatabaseState exampleSys) exampleGreen) =
        [Event.signalStateChanged 1 "GREEN"] ∧
      emittedBy pollDatabaseState
        (pollDatabaseState (step (pollDatabaseState exampleSys) exampleGreen)) = [] ∧
      ¬ (step exampleSys exampleReadFails).signalFetchOk ∧
      (step exampleSys exampleReadFails).trainFetchOk ∧
      emittedBy pollDatabaseState (step exampleSys exampleReadFails) =
        [Event.trainPositionChanged 3 "Junction B"] ∧
      QMap.find? (pollDatabaseState (step exampleSys exampleReadFails)).m.m_lastKnownTrainPositions
        3 = some "Junction B" :=
  ⟨by decide, by decide, by decide, by decide,
    (pollDatabaseState_diff exampleSys (by decide) (by decide)).1.trans (by decide),
    ((pollDatabaseState_diff exampleSys (by decide) (by decide)).2.1 (by decide)).1
      (1, "RED") (by decide),
    by decide, by decide, by decide, by decide,
    (pollDatabaseState_diff (step exampleSys exampleReadFails) (by decide) (by decide)).1.trans
      (by decide),
    ((pollDatabaseState_diff (step exampleSys exampleReadFails) (by decide) (by decide)).2.2
      (by decide)).1 (3, "Junction B") (by decide)⟩

/-! ## Two polls in a row -/

theorem second_poll_signals (s : Sys) (hc : s.m.m_isConnected = true) (hpk : s.db.PrimaryKeys)
    (hs : s.signalFetchOk) :
    cacheAfter (pollDatabaseState s).m.m_lastKnownSignalStates
        ((pollDatabaseState s).db.fetched (pollDatabaseState s).db.selectSignalStates) =
          (pollDatabaseState s).m.m_lastKnownSignalStates ∧
      changedRows (pollDatabaseState s).m.m_lastKnownSignalStates
        ((pollDatabaseState s).db.fetched (pollDatabaseState s).db.selectSignalStates) = [] := by
  apply diff_of_up_to_date
  intro r hr
  have hm := (Db.fetched_sublist _ _).subset hr
  rw [(pollDatabaseState_tables s).1] at hm
  rw [pollDatabaseState_signalCache s hc, Db.fetched_of_ok _ _ hs]
  exact find?_cacheAfter_of_mem _ _ (s.db.selectSignalStates_nodup hpk) r hm

theorem second_poll_trains (s : Sys) (hc : s.m.m_isConnected = true) (hpk : s.db.PrimaryKeys)
    (ht : s.trainFetchOk) :
    cacheAfter (pollDatabaseState s).m.m_lastKnownTrainPositions
        (((pollDatabaseState s).db.call .pollSignals).2.fetched
          (pollDatabaseState s).db.selectTrainPositions) =
          (pollDatabaseState s).m.m_lastKnownTrainPositions ∧
      changedRows (pollDatabaseState s).m.m_lastKnownTrainPositions
        (((pollDatabaseState s).db.call .pollSignals).2.fetched
          (pollDatabaseState s).db.selectTrainPositions) = [] := by
  apply diff_of_up_to_date
  intro r hr
  have hm := (Db.fetched_sublist _ _).subset hr
  rw [(pollDatabaseState_tables s).2] at hm
  rw [pollDatabaseState_trainCache s hc, Db.fetched_of_ok _ _ ht]
  exact find?_cacheAfter_of_mem _ _ (s.db.selectTrainPositions_nodup hpk) r hm

/-- C2 (as amended). Idempotent diffing, collection by collection.  While
connected, on tables that respect their primary keys, for each collection whose
fetch succeeded in a first `pollDatabaseState`, a second `pollDatabaseState`
on the unchanged store emits no change signal of that collection and leaves
its cache unchanged, whether or not the fetches of the second cycle succeed.
When both fetches of the first cycle succeeded, the second cycle emits nothing
at all and leaves the manager, both caches included, unchanged. -/
theorem pollDatabaseState_idempotent (s : Sys) (hc : s.m.m_isConnected = true)
    (hpk : s.db.PrimaryKeys) :
    (s.signalFetchOk →
        (∀ i v, Event.signalStateChanged i v ∉
          emittedBy pollDatabaseState (pollDatabaseState s)) ∧
        (pollDatabaseState (pollDatabaseState s)).m.m_lastKnownSignalStates =
          (pollDatabaseState s).m.m_lastKnownSignalStates) ∧
      (s.trainFetchOk →
        (∀ i v, Event.trainPositionChanged i v ∉
          emittedBy pollDatabaseState (pollDatabaseState s)) ∧
        (pollDatabaseState (pollDatabaseState s)).m.m_lastKnownTrainPositions =
          (pollDatabaseState s).m.m_lastKnownTrainPositions) ∧
      (s.signalFetchOk → s.trainFetchOk →
        emittedBy pollDatabaseState (pollDatabaseState s) = [] ∧
        (pollDatabaseState (pollDatabaseState s)).m = (pollDatabaseState s).m) := by
  have hc1 : (pollDatabaseState s).m.m_isConnected = true :=
    (pollDatabaseState_opened s).2.trans hc
  have hem := emittedBy_pollDatabaseState (pollDatabaseState s) hc1
  refine ⟨?_, ?_, ?_⟩
  · intro hs
    have d := second_poll_signals s hc hpk hs
    refine ⟨?_, ?_⟩
    · intro i v hmem
      rw [hem, d.2] at hmem
      rcases List.mem_append.1 hmem with h | h
      · exact List.not_mem_nil _ h
      · obtain ⟨r, _, hr⟩ := List.mem_map.1 h
        exact Event.noConfusion hr
    · rw [pollDatabaseState_signalCache _ hc1, d.1]
  · intro ht
    have d := second_poll_trains s hc hpk ht
    refine ⟨?_, ?_⟩
    · intro i v hmem
      rw [hem, d.2] at hmem
      rcases List.mem_append.1 hmem with h | h
      · obtain ⟨r, _, hr⟩ := List.mem_map.1 h
        exact Event.noConfusion hr
      · exact List.not_mem_nil _ h
    · rw [pollDatabaseState_trainCache _ hc1, d.1]
  · intro hs ht
    have dS := second_poll_signals s hc hpk hs
    have dT := second_poll_trains s hc hpk ht
    refine ⟨?_, ?_⟩
    · rw [hem, dS.2, dT.2]; rfl
    · have e2 := pollDatabaseState_eq (pollDatabaseState s) hc1
      rw [dS.1, dT.1] at e2
      rw [e2]

/-- Witness of C2 (as amended): both fetches of the first cycle succeed on the
example system; on `exampleMissedRead` only the fetch of the trains does. -/
theorem pollDatabaseState_idempotent_witness :
    exampleSys.m.m_isConnected = true ∧ exampleSys.db.PrimaryKeys ∧
      exampleSys.signalFetchOk ∧ exampleSys.trainFetchOk ∧
      emittedBy pollDatabaseState (pollDatabaseState exampleSys) = [] ∧
      (pollDatabaseState (pollDatabaseState exampleSys)).m.m_lastKnownSignalStates =
        [(1, "RED")] ∧
      exampleMissedRead.m.m_isConnected = true ∧ exampleMissedRead.db.PrimaryKeys ∧
      exampleMissedRead.trainFetchOk ∧
      (pollDatabaseState (pollDatabaseState exampleMissedRead)).m.m_lastKnownTrainPositions =
        (pollDatabaseState exampleMissedRead).m.m_lastKnownTrainPositions :=
  ⟨by decide, by decide, by decide, by decide,
    ((pollDatabaseState_idempotent exampleSys (by decide) (by decide)).2.2
      (by decide) (by decide)).1,
    ((pollDatabaseState_idempotent exampleSys (by decide) (by decide)).1 (by decide)).2.trans
      (by decide),
    by decide, by decide, by decide,
    ((pollDatabaseState_idempotent exampleMissedRead (by decide) (by decide)).2.1
      (by decide)).2⟩

/-- C2, counterexample to the claim as stated.  `exampleMissedRead` is reachable
and connected; signal 1 is cached as RED and stored as GREEN.  In the first
`pollDatabaseState` the fetch of the signals fails, so nothing is emitted for
signal 1 and the cache keeps RED.  The store is not changed, and the second
`pollDatabaseState` emits `signalStateChanged(1, GREEN)` and changes the
signal cache. -/
theorem second_poll_emits_after_failed_fetch :
    Reachable exampleMissedRead ∧ exampleMissedRead.m.m_isConnected = true ∧
      emittedBy pollDatabaseState exampleMissedRead =
        [Event.trainPositionChanged 3 "Junction B"] ∧
      (pollDatabaseState exampleMissedRead).db.railway_signals =
        exampleMissedRead.db.railway_signals ∧
      (pollDatabaseState exampleMissedRead).db.railway_trains =
        exampleMissedRead.db.railway_trains ∧
      emittedBy pollDatabaseState (pollDatabaseState exampleMissedRead) =
        [Event.signalStateChanged 1 "GREEN"] ∧
      (pollDatabaseState exampleMissedRead).m.m_lastKnownSignalStates = [(1, "RED")] ∧
      (pollDatabaseState (pollDatabaseState exampleMissedRead)).m.m_lastKnownSignalStates =
        [(1, "GREEN")] :=
  ⟨Reachable.next _ _ (Reachable.start exampleStore) (by decide),
    by decide, by decide, by decide, by decide, by decide, by decide, by decide⟩

/-! ## A write followed by a poll -/

theorem poll_after_updateSignalState (s : Sys) (signalId : Int) (state : String)
    (hc : s.m.m_isConnected = true) (hw : s.db.nextOutcome = none)
    (hrow : ∃ r ∈ s.db.railway_signals, r.signal_id = signalId)
    (hcache : QMap.find? s.m.m_lastKnownSignalStates signalId ≠ some state)
    (hf : (updateSignalState signalId state s).signalFetchOk) :
    Event.signalStateChanged signalId state ∈
      emittedBy pollDatabaseState (updateSignalState signalId state s) := by
  have e := updateSignalState_ok signalId state s hc hw
  rw [if_neg (s.db.signalRowsMatching_ne_zero signalId hrow)] at e
  have hrows := Db.setSignalState_rows (s.db.call (.updateSignal state signalId)).2 state signalId
    hrow
  rw [e] at hf ⊢
  exact poll_emits_signal _ signalId state hc hf hrows.1 hrows.2 hcache

theorem poll_after_updateTrainPosition (s : Sys) (trainId : Int) (position : String)
    (hc : s.m.m_isConnected = true) (hw : s.db.nextOutcome = none)
    (hrow : ∃ r ∈ s.db.railway_trains, r.train_id = trainId)
    (hcache : QMap.find? s.m.m_lastKnownTrainPositions trainId ≠ some position)
    (hf : (updateTrainPosition trainId position s).trainFetchOk) :
    Event.trainPositionChanged trainId position ∈
      emittedBy pollDatabaseState (updateTrainPosition trainId position s) := by
  have e := updateTrainPosition_ok trainId position s hc hw
  rw [if_neg (s.db.trainRowsMatching_ne_zero trainId hrow)] at e
  have hrows := Db.setTrainPosition_rows (s.db.call (.updateTrain position trainId)).2 position
    trainId hrow
  rw [e] at hf ⊢
  exact poll_emits_train _ trainId position hc hf hrows.1 hrows.2 hcache

/-- C4 (as amended). Write/read separation: in every state and for every id and
value, `updateSignalState` and `updateTrainPosition` leave the manager, both
caches included, unchanged and emit nothing but `errorOccurred` signals, so
never `signalStateChanged` or `trainPositionChanged`.  When the manager is
connected, the write succeeds on an existing row and the cache does not already
hold the written value for the id, the next `pollDatabaseState` emits the
change signal for that id with the written value provided its fetch of that
collection succeeds, whatever happens to its fetch of the other collection. -/
theorem update_then_poll (s : Sys) (signalId trainId : Int) (state position : String) :
    ((updateSignalState signalId state s).m = s.m ∧
        (updateTrainPosition trainId position s).m = s.m) ∧
      (∀ e ∈ emittedBy (updateSignalState signalId state) s ++
          emittedBy (updateTrainPosition trainId position) s,
        (∀ i v, e ≠ Event.signalStateChanged i v) ∧
          (∀ i v, e ≠ Event.trainPositionChanged i v)) ∧
      (s.m.m_isConnected = true → s.db.nextOutcome = none →
        (∃ r ∈ s.db.railway_signals, r.signal_id = signalId) →
        QMap.find? s.m.m_lastKnownSignalStates signalId ≠ some state →
        (updateSignalState signalId state s).signalFetchOk →
        Event.signalStateChanged signalId state ∈
          emittedBy pollDatabaseState (updateSignalState signalId state s)) ∧
      (s.m.m_isConnected = true → s.db.nextOutcome = none →
        (∃ r ∈ s.db.railway_trains, r.train_id = trainId) →
        QMap.find? s.m.m_lastKnownTrainPositions trainId ≠ some position →
        (updateTrainPosition trainId position s).trainFetchOk →
        Event.trainPositionChanged trainId position ∈
          emittedBy pollDatabaseState (updateTrainPosition trainId position s)) := by
  refine ⟨⟨(updateSignalState_frame signalId state s).1,
      (updateTrainPosition_frame trainId position s).1⟩, ?_,
    poll_after_updateSignalState s signalId state,
    poll_after_updateTrainPosition s trainId position⟩
  intro e he
  have hmsg : ∃ msg, e = Event.errorOccurred msg := by
    rcases List.mem_append.1 he with h | h
    · exact (updateSignalState_frame signalId state s).2 e h
    · exact (updateTrainPosition_frame trainId position s).2 e h
  obtain ⟨msg, rfl⟩ := hmsg
  exact ⟨fun i v h => Event.noConfusion h, fun i v h => Event.noConfusion h⟩

/-- Witness of C4 (as amended): with signal 1 cached as RED,
`updateSignalState(1, "GREEN")` emits nothing and the next poll emits
`signalStateChanged(1, GREEN)`; with train 3 cached at Platform A,
`updateTrainPosition(3, "Junction B")` on `exampleWriteOnly` is followed by a
poll whose fetch of the signals fails and which still emits
`trainPositionChanged(3, Junction B)`. -/
theorem update_then_poll_witness :
    exampleCached.m.m_isConnected = true ∧ exampleCached.db.nextOutcome = none ∧
      (∃ r ∈ exampleCached.db.railway_signals, r.signal_id = 1) ∧
      QMap.find? exampleCached.m.m_lastKnownSignalStates 1 ≠ some "GREEN" ∧
      (updateSignalState 1 "GREEN" exampleCached).signalFetchOk ∧
      emittedBy (updateSignalState 1 "GREEN") exampleCached = [] ∧
      Event.signalStateChanged 1 "GREEN" ∈
        emittedBy pollDatabaseState (updateSignalState 1 "GREEN" exampleCached) ∧
      exampleWriteOnly.m.m_isConnected = true ∧ exampleWriteOnly.db.nextOutcome = none ∧
      (∃ r ∈ exampleWriteOnly.db.railway_trains, r.train_id = 3) ∧
      QMap.find? exampleWriteOnly.m.m_lastKnownTrainPositions 3 ≠ some "Junction B" ∧
      ¬ (updateTrainPosition 3 "Junction B" exampleWriteOnly).signalFetchOk ∧
      (updateTrainPosition 3 "Junction B" exampleWriteOnly).trainFetchOk ∧
      Event.trainPositionChanged 3 "Junction B" ∈
        emittedBy pollDatabaseState (updateTrainPosition 3 "Junction B" exampleWriteOnly) :=
  ⟨by decide, by decide, by decide, by decide, by decide, by decide,
    (update_then_poll exampleCached 1 3 "GREEN" "Junction B").2.2.1
      (by decide) (by decide) (by decide) (by decide) (by decide),
    by decide, by decide, by decide, by decide, by decide, by decide,
    (update_then_poll exampleWriteOnly 1 3 "GREEN" "Junction B").2.2.2
      (by decide) (by decide) (by decide) (by decide) (by decide)⟩

/-- C4, counterexample to the claim as stated.  On `exampleWriteOnly` the manager
is connected, signal 1 exists and is cached as RED, and
`updateSignalState(1, "GREEN")` succeeds: the row is written.  The fetch of
the signals in the next `pollDatabaseState` fails, and that poll emits
nothing: no change signal for signal 1. -/
theorem poll_after_write_can_be_silent :
    exampleWriteOnly.m.m_isConnected = true ∧ exampleWriteOnly.db.nextOutcome = none ∧
      (∃ r ∈ exampleWriteOnly.db.railway_signals, r.signal_id = 1) ∧
      QMap.find? exampleWriteOnly.m.m_lastKnownSignalStates 1 = some "RED" ∧
      emittedBy (updateSignalState 1 "GREEN") exampleWriteOnly = [] ∧
      (updateSignalState 1 "GREEN" exampleWriteOnly).db.selectSignalStates =
        [(1, "GREEN"), (5, "GREEN")] ∧
      ¬ (updateSignalState 1 "GREEN" exampleWriteOnly).signalFetchOk ∧
      emittedBy pollDatabaseState (updateSignalState 1 "GREEN" exampleWriteOnly) = [] :=
  ⟨by decide, by decide, by decide, by decide, by decide, by decide, by decide, by decide⟩

/-! ## Failed fetches in one poll cycle -/

/-- C9 (as amended). Poll failure isolation.  A query error during one
collection's fetch is not reported: `pollDatabaseState` never emits
`errorOccurred`, whatever the query outcomes, and never changes
`m_isConnected`, the status text or the handle.  While connected, on tables
that respect their primary keys, when the fetch of one collection fails
nothing is emitted for that collection and its cache is left as it was, and
the signals of the cycle are exactly those of the other collection, whose rows
are still fetched and diffed in the same cycle. -/
theorem pollDatabaseState_failure_isolation (s : Sys) :
    (∀ msg : String, Event.errorOccurred msg ∉ emittedBy pollDatabaseState s) ∧
      ((pollDatabaseState s).m.m_isConnected = s.m.m_isConnected ∧
        (pollDatabaseState s).m.m_connectionStatus = s.m.m_connectionStatus ∧
        (pollDatabaseState s).m.m_databaseOpen = s.m.m_databaseOpen) ∧
      (s.m.m_isConnected = true → s.db.PrimaryKeys → ¬ s.signalFetchOk →
        emittedBy pollDatabaseState s =
          (if s.trainFetchOk then
            (s.db.selectTrainPositions.filter
                (fun r => decide (QMap.find? s.m.m_lastKnownTrainPositions r.1 ≠ some r.2))).map
              (fun r => Event.trainPositionChanged r.1 r.2)
          else []) ∧
        (pollDatabaseState s).m.m_lastKnownSignalStates = s.m.m_lastKnownSignalStates) ∧
      (s.m.m_isConnected = true → s.db.PrimaryKeys → ¬ s.trainFetchOk →
        emittedBy pollDatabaseState s =
          (if s.signalFetchOk then
            (s.db.selectSignalStates.filter
                (fun r => decide (QMap.find? s.m.m_lastKnownSignalStates r.1 ≠ some r.2))).map
              (fun r => Event.signalStateChanged r.1 r.2)
          else []) ∧
        (pollDatabaseState s).m.m_lastKnownTrainPositions = s.m.m_lastKnownTrainPositions) := by
  refine ⟨pollDatabaseState_no_error s,
    ⟨congrArg (fun c => c.2.1) (pollDatabaseState_conn s),
      congrArg (fun c => c.2.2.1) (pollDatabaseState_conn s),
      congrArg (fun c => c.1) (pollDatabaseState_conn s)⟩, ?_, ?_⟩
  · intro hc hpk hs
    refine ⟨?_, ?_⟩
    · rw [emittedBy_poll_of_keys s hc hpk, if_neg hs]; rfl
    · rw [pollDatabaseState_signalCache s hc, Db.fetched_eq,
        if_neg (show ¬ s.db.nextOutcome = none from hs)]; rfl
  · intro hc hpk ht
    refine ⟨?_, ?_⟩
    · rw [emittedBy_poll_of_keys s hc hpk, if_neg ht, List.append_nil]
    · rw [pollDatabaseState_trainCache s hc, Db.fetched_eq,
        if_neg (show ¬ (s.db.call .pollSignals).2.nextOutcome = none from ht)]; rfl

/-- Witness of C9 (as amended): a cycle whose fetch of the signals fails and one
whose fetch of the trains fails, both with signal 1 and train 3 changed. -/
theorem pollDatabaseState_failure_isolation_witness :
    (step exampleSys exampleReadFails).m.m_isConnected = true ∧
      (step exampleSys exampleReadFails).db.PrimaryKeys ∧
      ¬ (step exampleSys exampleReadFails).signalFetchOk ∧
      emittedBy pollDatabaseState (step exampleSys exampleReadFails) =
        [Event.trainPositionChanged 3 "Junction B"] ∧
      (step exampleSys exampleTrainReadFails).m.m_isConnected = true ∧
      (step exampleSys exampleTrainReadFails).db.PrimaryKeys ∧
      ¬ (step exampleSys exampleTrainReadFails).trainFetchOk ∧
      emittedBy pollDatabaseState (step exampleSys exampleTrainReadFails) =
        [Event.signalStateChanged 1 "GREEN"] :=
  ⟨by decide, by decide, by decide,
    ((pollDatabaseState_failure_isolation (step exampleSys exampleReadFails)).2.2.1
      (by decide) (by decide) (by decide)).1.trans (by decide),
    by decide, by decide, by decide,
    ((pollDatabaseState_failure_isolation (step exampleSys exampleTrainReadFails)).2.2.2
      (by decide) (by decide) (by decide)).1.trans (by decide)⟩

/-- C9, counterexample to the claim as stated.  The manager is connected, signal 1
has changed to GREEN and train 3 has moved; the fetch of the signals fails
with a query error.  The cycle emits the change of train 3 and nothing else:
the query error is not reported as an error event. -/
theorem failed_fetch_is_not_reported :
    (step exampleSys exampleReadFails).m.m_isConnected = true ∧
      (step exampleSys exampleReadFails).db.nextOutcome =
        some "server closed the connection unexpectedly" ∧
      emittedBy pollDatabaseState (step exampleSys exampleReadFails) =
        [Event.trainPositionChanged 3 "Junction B"] ∧
      (pollDatabaseState (step exampleSys exampleReadFails)).db.received =
        [Stmt.pollSignals, Stmt.pollTrains] :=
  ⟨by decide, by decide, by decide, by decide⟩

/-! ## What the property bindings read -/

theorem loadCurrentState_reads (s : Sys) :
    (loadCurrentState s).propertyReads = s.propertyReads := by
  unfold loadCurrentState
  split
  · rfl
  · cases h1 : s.db.nextOutcome <;> cases h2 : (s.db.call Stmt.loadSignals).2.nextOutcome <;>
      simp only [exec_eq, h1, h2, loadSignalRows_eq, loadTrainRows_eq]

theorem seedSignals_reads (s : Sys) : (seedSignals s).propertyReads = s.propertyReads := by
  unfold seedSignals
  cases h1 : s.db.nextOutcome with
  | some e => simp only [exec_eq, h1]
  | none =>
    simp only [exec_eq, h1]
    split
    · cases h2 : (s.db.call Stmt.countSignals).2.nextOutcome <;> simp only [h2]
    · rfl

theorem seedTrains_reads (s : Sys) : (seedTrains s).propertyReads = s.propertyReads := by
  unfold seedTrains
  cases h1 : s.db.nextOutcome with
  | some e => simp only [exec_eq, h1]
  | none =>
    simp only [exec_eq, h1]
    split
    · cases h2 : (s.db.call Stmt.countTrains).2.nextOutcome <;> simp only [h2]
    · rfl

theorem setupDatabase_reads (s : Sys) : (setupDatabase s).propertyReads = s.propertyReads := by
  unfold setupDatabase
  cases h1 : s.db.nextOutcome with
  | some e => simp only [exec_eq, h1, logDatabaseError, emit]
  | none =>
    cases h2 : (s.db.call Stmt.createSignalsTable).2.nextOutcome with
    | some e => simp only [exec_eq, h1, h2, logDatabaseError, emit]
    | none =>
      simp only [exec_eq, h1, h2]
      rw [loadCurrentState_reads, seedTrains_reads, seedSignals_reads]

/-- `connectToDatabase` emits `connectionChanged` once, after it has set
`m_isConnected` and the status text to their final values. -/
theorem connectToDatabase_reads (s : Sys) :
    (connectToDatabase s).2.propertyReads =
      s.propertyReads ++
        [((connectToDatabase s).2.m.m_isConnected, (connectToDatabase s).2.m.m_connectionStatus)] := by
  cases hn : s.db.nextOutcome with
  | some text => rw [connectToDatabase_failed s text hn]
  | none =>
    rw [connectToDatabase_eq_ok s hn]
    show (setupDatabase (afterOpen s)).propertyReads ++ _ = _
    rw [setupDatabase_reads]
    rfl

/-- C8. Polling only executes while connected.  (1) With `m_isConnected` false,
`pollDatabaseState` returns the state as it is: no call reaches the server,
nothing is emitted, no cache changes.  (2) When the health test of
`checkConnection` fails, `m_isConnected` is set to false (and the status to
"Connection Lost") before the reconnect attempt: the reconnect starts from a
state in which they have these values, in which the server has received no
call since the test, and in which `connectionChanged` has already let the
property bindings read `(false, "Connection Lost")`; over the whole call they
read this pair first and the outcome of the reconnect second.  (3) When no
`open()` succeeds during that `checkConnection` nor during any steps that
follow, `m_isConnected` is false after every one of these steps, so every
poll among them is such a no-op. -/
theorem polling_only_while_connected (s : Sys) :
    (s.m.m_isConnected = false → pollDatabaseState s = s) ∧
      ((testConnection s).1 = false →
        (∃ t : Sys, t.m.m_isConnected = false ∧ t.m.m_connectionStatus = "Connection Lost" ∧
          t.m.m_lastKnownSignalStates = (testConnection s).2.m.m_lastKnownSignalStates ∧
          t.m.m_lastKnownTrainPositions = (testConnection s).2.m.m_lastKnownTrainPositions ∧
          t.db = (testConnection s).2.db ∧
          t.out = (testConnection s).2.out ++ [Event.connectionChanged] ∧
          t.propertyReads =
            (testConnection s).2.propertyReads ++ [(false, "Connection Lost")] ∧
          checkConnection s = (connectToDatabase t).2) ∧
        (checkConnection s).propertyReads =
          (testConnection s).2.propertyReads ++
            [(false, "Connection Lost"),
              ((checkConnection s).m.m_isConnected, (checkConnection s).m.m_connectionStatus)]) ∧
      ((testConnection s).1 = false →
        ∀ ops : List Op, (run (checkConnection s) ops).db.opened = s.db.opened →
          ∀ pre post : List Op, ops = pre ++ post →
            (run (checkConnection s) pre).m.m_isConnected = false ∧
              pollDatabaseState (run (checkConnection s) pre) = run (checkConnection s) pre) := by
  refine ⟨pollDatabaseState_not_connected s, ?_, ?_⟩
  · intro hf
    refine ⟨checkConnection_of_failed_test s hf, ?_⟩
    obtain ⟨t, _, _, _, _, _, _, hreads, he⟩ := checkConnection_of_failed_test s hf
    rw [he, connectToDatabase_reads t, hreads, List.append_assoc]
    rfl
  · intro hf ops he pre post hsplit
    have hc := checkConnection_opened_le s
    have hr := run_opened_le ops (checkConnection s)
    have h0 : (checkConnection s).db.opened = s.db.opened :=
      Nat.le_antisymm (he ▸ hr) hc.1
    have hdown : (checkConnection s).m.m_isConnected = false := hc.2.1 hf h0
    have hpre : (run (checkConnection s) pre).m.m_isConnected = false := by
      apply run_prefix_stays_down (checkConnection s) pre post hdown
      rw [← hsplit, he, h0]
    exact ⟨hpre, pollDatabaseState_not_connected _ hpre⟩

/-- Witness of C8: a poll after `disconnectFromDatabase` is a no-op; and when
the server is gone, the health test and the reconnect fail (the bindings, which
had read `true` at the constructor's connect, read `false` twice), and one
poll, a further failed health check and another poll follow. -/
theorem polling_only_while_connected_witness :
    (disconnectFromDatabase exampleSys).m.m_isConnected = false ∧
      pollDatabaseState (disconnectFromDatabase exampleSys) =
        disconnectFromDatabase exampleSys ∧
      (testConnection exampleDown).1 = false ∧
      (∃ t : Sys, t.m.m_isConnected = false ∧
        checkConnection exampleDown = (connectToDatabase t).2) ∧
      (checkConnection exampleDown).propertyReads =
        [(true, "Connected to PostgreSQL"), (false, "Connection Lost"),
          (false, "Connection Failed: could not connect to server")] ∧
      (run (checkConnection exampleDown)
        [.pollDatabaseState, exampleOutage, .checkConnection, .pollDatabaseState]).db.opened =
          exampleDown.db.opened ∧
      (checkConnection exampleDown).m.m_isConnected = false ∧
      pollDatabaseState (run (checkConnection exampleDown)
          [.pollDatabaseState, exampleOutage, .checkConnection]) =
        run (checkConnection exampleDown) [.pollDatabaseState, exampleOutage, .checkConnection] :=
  ⟨by decide,
    (polling_only_while_connected (disconnectFromDatabase exampleSys)).1 (by decide),
    by decide,
    Exists.elim ((polling_only_while_connected exampleDown).2.1 (by decide)).1
      (fun t h => ⟨t, h.1, h.2.2.2.2.2.2.2⟩),
    ((polling_only_while_connected exampleDown).2.1 (by decide)).2.trans (by decide),
    by decide,
    ((polling_only_while_connected exampleDown).2.2 (by decide)
      [.pollDatabaseState, exampleOutage, .checkConnection, .pollDatabaseState] (by decide)
      [] [.pollDatabaseState, exampleOutage, .checkConnection, .pollDatabaseState] rfl).1,
    ((polling_only_while_connected exampleDown).2.2 (by decide)
      [.pollDatabaseState, exampleOutage, .checkConnection, .pollDatabaseState] (by decide)
      [.pollDatabaseState, exampleOutage, .checkConnection] [.pollDatabaseState] rfl).2⟩

end Railway
